import Mathlib

/-!
Verification of the Amazon settlement-reconciliation and order-document
orchestration logic of the ecommerce_integrations repository
(ecommerce_integrations/amazon/doctype/amazon_sp_api_settings/amazon_repository.py),
as a shallow embedding in Lean 4.

Currency amounts are modelled as integers (the Python code converts every
amount with float; none of the verified properties depends on fractional
values).  A Python dictionary field that may be absent is modelled as an
Option; reading an absent key with dict.get(k, d) yields the default d,
while direct indexing dict[k] raises KeyError, which the embedding models
with Except.
-/

namespace ECInt

/-! ### Financial events data model (SP-API Finances payloads)

Shapes follow the fields that amazon_repository.py actually reads.
An ItemCharge models one entry of an ItemChargeList (or of an
ItemChargeAdjustmentList / ChargebackAdjustmentList): the code reads
ChargeType and ChargeAmount.CurrencyAmount.  chargeAmount is none when
the ChargeAmount dict or its CurrencyAmount key is missing. -/

structure ItemCharge where
  chargeType : Option String := none
  chargeAmount : Option Int := none
  deriving DecidableEq, Repr

structure ItemFee where
  feeType : Option String := none
  feeAmount : Option Int := none
  deriving DecidableEq, Repr

structure Promotion where
  promotionAmount : Option Int := none
  deriving DecidableEq, Repr

structure ShipmentItem where
  sellerSKU : Option String := none
  itemChargeList : List ItemCharge := []
  itemFeeList : List ItemFee := []
  promotionList : List Promotion := []
  deriving DecidableEq, Repr

structure ShipmentEvent where
  amazonOrderId : Option String := none
  shipmentItemList : List ShipmentItem := []
  deriving DecidableEq, Repr

structure RefundItem where
  itemChargeAdjustmentList : List ItemCharge := []
  itemFeeAdjustmentList : List ItemFee := []
  deriving DecidableEq, Repr

structure RefundEvent where
  amazonOrderId : Option String := none
  refundItemList : List RefundItem := []
  deriving DecidableEq, Repr

structure AdjustmentItem where
  amazonOrderId : Option String := none
  quantityAdjustment : Option Int := none
  deriving DecidableEq, Repr

structure AdjustmentEvent where
  adjustmentItemList : List AdjustmentItem := []
  deriving DecidableEq, Repr

structure ServiceFeeEvent where
  amazonOrderId : Option String := none
  feeList : List ItemFee := []
  deriving DecidableEq, Repr

structure ChargebackEvent where
  amazonOrderId : Option String := none
  chargebackAdjustmentList : List ItemCharge := []
  deriving DecidableEq, Repr

/-- One page of a list_financial_events response: the FinancialEvents dict
with the five event lists read by check_amazon_settlement_available. -/
structure FinancialEvents where
  shipmentEventList : List ShipmentEvent := []
  refundEventList : List RefundEvent := []
  adjustmentEventList : List AdjustmentEvent := []
  serviceFeeEventList : List ServiceFeeEvent := []
  chargebackEventList : List ChargebackEvent := []
  deriving DecidableEq, Repr

/-- One settlement group (FinancialEventGroupList entry) together with the
sequence of event pages that list_financial_events_by_group_id returns for
it (the NextToken pagination chain).  An empty pages list models a falsy
events payload, which the source skips with continue. -/
structure FinancialEventGroup where
  financialEventGroupId : Option String := none
  pages : List FinancialEvents := []
  deriving DecidableEq, Repr

/-! ### Settlement aggregator (check_amazon_settlement_available, lines 631-764)

Direct dictionary indexing such as c["ChargeAmount"]["CurrencyAmount"]
raises KeyError when the key is absent; keyGet models that read. -/

def keyGet (v : Option Int) (k : String) : Except String Int :=
  match v with
  | some a => .ok a
  | none => .error ("KeyError: " ++ k)

/-- Sum of c["ChargeAmount"]["CurrencyAmount"] over a charge list, failing
on the first charge whose amount is missing. -/
def sumChargeAmounts : List ItemCharge → Except String Int
  | [] => .ok 0
  | c :: cs => do
      let a ← keyGet c.chargeAmount "ChargeAmount"
      let s ← sumChargeAmounts cs
      .ok (a + s)

def sumFeeAmounts : List ItemFee → Except String Int
  | [] => .ok 0
  | f :: fs => do
      let a ← keyGet f.feeAmount "FeeAmount"
      let s ← sumFeeAmounts fs
      .ok (a + s)

def sumPromotionAmounts : List Promotion → Except String Int
  | [] => .ok 0
  | p :: ps => do
      let a ← keyGet p.promotionAmount "PromotionAmount"
      let s ← sumPromotionAmounts ps
      .ok (a + s)

/-- Contribution of one ShipmentItemList entry: plus item charges, minus
item fees, minus promotions (source lines 710-716). -/
def shipmentItemDelta (it : ShipmentItem) : Except String Int := do
  let c ← sumChargeAmounts it.itemChargeList
  let f ← sumFeeAmounts it.itemFeeList
  let p ← sumPromotionAmounts it.promotionList
  .ok (c - f - p)

def shipmentItemsDelta : List ShipmentItem → Except String Int
  | [] => .ok 0
  | it :: its => do
      let d ← shipmentItemDelta it
      let s ← shipmentItemsDelta its
      .ok (d + s)

/-- Fold over the ShipmentEventList: events whose AmazonOrderId equals the
target order id set the found flag and contribute their items. -/
def shipmentEventsFold (orderId : String) : List ShipmentEvent → Except String (Int × Bool)
  | [] => .ok (0, false)
  | e :: es => do
      let (t, f) ←
        if e.amazonOrderId = some orderId then do
          let d ← shipmentItemsDelta e.shipmentItemList
          pure (d, true)
        else
          pure ((0 : Int), false)
      let (t', f') ← shipmentEventsFold orderId es
      .ok (t + t', f || f')

/-- Contribution of one RefundItemList entry: plus charge adjustments,
minus fee adjustments (source lines 722-726). -/
def refundItemDelta (it : RefundItem) : Except String Int := do
  let c ← sumChargeAmounts it.itemChargeAdjustmentList
  let f ← sumFeeAmounts it.itemFeeAdjustmentList
  .ok (c - f)

def refundItemsDelta : List RefundItem → Except String Int
  | [] => .ok 0
  | it :: its => do
      let d ← refundItemDelta it
      let s ← refundItemsDelta its
      .ok (d + s)

def refundEventsFold (orderId : String) : List RefundEvent → Except String (Int × Bool)
  | [] => .ok (0, false)
  | e :: es => do
      let (t, f) ←
        if e.amazonOrderId = some orderId then do
          let d ← refundItemsDelta e.refundItemList
          pure (d, true)
        else
          pure ((0 : Int), false)
      let (t', f') ← refundEventsFold orderId es
      .ok (t + t', f || f')

/-- Adjustment events: the order id sits on each AdjustmentItemList line,
and the amount is read with adj.get("QuantityAdjustment", 0), so a missing
field contributes 0 and never fails (source lines 729-733). -/
def adjustmentItemsFold (orderId : String) : List AdjustmentItem → Int × Bool
  | [] => (0, false)
  | a :: as_ =>
      let (t, f) :=
        if a.amazonOrderId = some orderId then (a.quantityAdjustment.getD 0, true)
        else ((0 : Int), false)
      let (t', f') := adjustmentItemsFold orderId as_
      (t + t', f || f')

def adjustmentEventsFold (orderId : String) : List AdjustmentEvent → Int × Bool
  | [] => (0, false)
  | e :: es =>
      let (t, f) := adjustmentItemsFold orderId e.adjustmentItemList
      let (t', f') := adjustmentEventsFold orderId es
      (t + t', f || f')

def serviceFeeEventsFold (orderId : String) : List ServiceFeeEvent → Except String (Int × Bool)
  | [] => .ok (0, false)
  | e :: es => do
      let (t, f) ←
        if e.amazonOrderId = some orderId then do
          let s ← sumFeeAmounts e.feeList
          pure (-s, true)
        else
          pure ((0 : Int), false)
      let (t', f') ← serviceFeeEventsFold orderId es
      .ok (t + t', f || f')

def chargebackEventsFold (orderId : String) : List ChargebackEvent → Except String (Int × Bool)
  | [] => .ok (0, false)
  | e :: es => do
      let (t, f) ←
        if e.amazonOrderId = some orderId then do
          let s ← sumChargeAmounts e.chargebackAdjustmentList
          pure (s, true)
        else
          pure ((0 : Int), false)
      let (t', f') ← chargebackEventsFold orderId es
      .ok (t + t', f || f')

/-- One iteration of the inner while loop: process the five event lists of
one page, in source order. -/
def pageDelta (orderId : String) (fe : FinancialEvents) : Except String (Int × Bool) := do
  let (t1, f1) ← shipmentEventsFold orderId fe.shipmentEventList
  let (t2, f2) ← refundEventsFold orderId fe.refundEventList
  let (t3, f3) := adjustmentEventsFold orderId fe.adjustmentEventList
  let (t4, f4) ← serviceFeeEventsFold orderId fe.serviceFeeEventList
  let (t5, f5) ← chargebackEventsFold orderId fe.chargebackEventList
  .ok (t1 + t2 + t3 + t4 + t5, f1 || f2 || f3 || f4 || f5)

/-- The whole inner while loop of one group: total and found accumulated
over every page of the group. -/
def groupScan (orderId : String) : List FinancialEvents → Except String (Int × Bool)
  | [] => .ok (0, false)
  | p :: ps => do
      let (t, f) ← pageDelta orderId p
      let (t', f') ← groupScan orderId ps
      .ok (t + t', f || f')

/-- Embedding of check_amazon_settlement_available (lines 681-764): scan
settlement groups in fetch order, total and found reset per group; the
first group whose matched total is positive wins; a group with a falsy
events payload (empty pages) is skipped with continue. -/
def check_amazon_settlement_available (orderId : String) :
    List FinancialEventGroup → Except String (Int × Option String)
  | [] => .ok (0, none)
  | g :: gs =>
      if g.pages.isEmpty then check_amazon_settlement_available orderId gs
      else do
        let (total, found) ← groupScan orderId g.pages
        if found && total > 0 then .ok (total, g.financialEventGroupId)
        else check_amazon_settlement_available orderId gs

end ECInt

namespace ECInt

/-! ### Except helpers -/

@[simp]
theorem ok_bind {α β ε : Type} (a : α) (f : α → Except ε β) :
    (Except.ok a >>= f) = f a := rfl

@[simp]
theorem error_bind {α β ε : Type} (e : ε) (f : α → Except ε β) :
    ((Except.error e : Except ε α) >>= f) = Except.error e := rfl

@[simp]
theorem pure_eq_ok {α ε : Type} (a : α) : (pure a : Except ε α) = Except.ok a := rfl

/-! ### Spec-side definitions for the net payout (from the specification words)

The specification defines NetPayout as the signed sum of eight event
categories over the events of a group that match the target order id.
These definitions follow the specification, to be compared with the
embedding of the source loop. -/

def chargeAmounts (cs : List ItemCharge) : Int :=
  (cs.map (fun c => c.chargeAmount.getD 0)).sum

def feeAmounts (fs : List ItemFee) : Int :=
  (fs.map (fun f => f.feeAmount.getD 0)).sum

def promoAmounts (ps : List Promotion) : Int :=
  (ps.map (fun p => p.promotionAmount.getD 0)).sum

def pageShipCharges (oid : String) (fe : FinancialEvents) : Int :=
  (((fe.shipmentEventList.filter (fun e => e.amazonOrderId == some oid)).map
    (fun e => (e.shipmentItemList.map (fun it => chargeAmounts it.itemChargeList)).sum))).sum

def pageShipFees (oid : String) (fe : FinancialEvents) : Int :=
  (((fe.shipmentEventList.filter (fun e => e.amazonOrderId == some oid)).map
    (fun e => (e.shipmentItemList.map (fun it => feeAmounts it.itemFeeList)).sum))).sum

def pageShipPromos (oid : String) (fe : FinancialEvents) : Int :=
  (((fe.shipmentEventList.filter (fun e => e.amazonOrderId == some oid)).map
    (fun e => (e.shipmentItemList.map (fun it => promoAmounts it.promotionList)).sum))).sum

def pageRefundCharges (oid : String) (fe : FinancialEvents) : Int :=
  (((fe.refundEventList.filter (fun e => e.amazonOrderId == some oid)).map
    (fun e => (e.refundItemList.map (fun it => chargeAmounts it.itemChargeAdjustmentList)).sum))).sum

def pageRefundFees (oid : String) (fe : FinancialEvents) : Int :=
  (((fe.refundEventList.filter (fun e => e.amazonOrderId == some oid)).map
    (fun e => (e.refundItemList.map (fun it => feeAmounts it.itemFeeAdjustmentList)).sum))).sum

def pageAdjustments (oid : String) (fe : FinancialEvents) : Int :=
  ((fe.adjustmentEventList.map (fun e =>
    (((e.adjustmentItemList.filter (fun a => a.amazonOrderId == some oid)).map
      (fun a => a.quantityAdjustment.getD 0))).sum))).sum

def pageServiceFees (oid : String) (fe : FinancialEvents) : Int :=
  (((fe.serviceFeeEventList.filter (fun e => e.amazonOrderId == some oid)).map
    (fun e => feeAmounts e.feeList))).sum

def pageChargebacks (oid : String) (fe : FinancialEvents) : Int :=
  (((fe.chargebackEventList.filter (fun e => e.amazonOrderId == some oid)).map
    (fun e => chargeAmounts e.chargebackAdjustmentList))).sum

/-- Signed sum of the eight categories as the specification states it:
plus item charges, minus item fees, minus promotions, plus refund charge
adjustments, minus refund fee adjustments, plus adjustment amounts, minus
service fees, plus chargeback amounts. -/
def spec_net_payout (oid : String) (pages : List FinancialEvents) : Int :=
  (pages.map (pageShipCharges oid)).sum
    - (pages.map (pageShipFees oid)).sum
    - (pages.map (pageShipPromos oid)).sum
    + (pages.map (pageRefundCharges oid)).sum
    - (pages.map (pageRefundFees oid)).sum
    + (pages.map (pageAdjustments oid)).sum
    - (pages.map (pageServiceFees oid)).sum
    + (pages.map (pageChargebacks oid)).sum

def pageFound (oid : String) (fe : FinancialEvents) : Bool :=
  fe.shipmentEventList.any (fun e => e.amazonOrderId == some oid)
    || fe.refundEventList.any (fun e => e.amazonOrderId == some oid)
    || fe.adjustmentEventList.any
        (fun e => e.adjustmentItemList.any (fun a => a.amazonOrderId == some oid))
    || fe.serviceFeeEventList.any (fun e => e.amazonOrderId == some oid)
    || fe.chargebackEventList.any (fun e => e.amazonOrderId == some oid)

def spec_found (oid : String) (pages : List FinancialEvents) : Bool :=
  pages.any (pageFound oid)

/-! ### Presence predicates: every amount that the aggregator would read
for the given order id is present. -/

def chargesPresent (cs : List ItemCharge) : Bool :=
  cs.all (fun c => c.chargeAmount.isSome)

def feesPresent (fs : List ItemFee) : Bool :=
  fs.all (fun f => f.feeAmount.isSome)

def promosPresent (ps : List Promotion) : Bool :=
  ps.all (fun p => p.promotionAmount.isSome)

def shipItemPresent (it : ShipmentItem) : Bool :=
  chargesPresent it.itemChargeList && feesPresent it.itemFeeList
    && promosPresent it.promotionList

def refundItemPresent (it : RefundItem) : Bool :=
  chargesPresent it.itemChargeAdjustmentList && feesPresent it.itemFeeAdjustmentList

def pagePresent (oid : String) (fe : FinancialEvents) : Bool :=
  fe.shipmentEventList.all
      (fun e => !(e.amazonOrderId == some oid) || e.shipmentItemList.all shipItemPresent)
    && fe.refundEventList.all
      (fun e => !(e.amazonOrderId == some oid) || e.refundItemList.all refundItemPresent)
    && fe.serviceFeeEventList.all
      (fun e => !(e.amazonOrderId == some oid) || feesPresent e.feeList)
    && fe.chargebackEventList.all
      (fun e => !(e.amazonOrderId == some oid) || chargesPresent e.chargebackAdjustmentList)

def pagesPresent (oid : String) (pages : List FinancialEvents) : Bool :=
  pages.all (pagePresent oid)

/-! ### Sum distribution helpers -/

theorem map_sum_add {α : Type} (l : List α) (f g : α → Int) :
    (l.map (fun x => f x + g x)).sum = (l.map f).sum + (l.map g).sum := by
  induction l with
  | nil => simp
  | cons x xs ih => simp [ih]; ring

theorem map_sum_sub {α : Type} (l : List α) (f g : α → Int) :
    (l.map (fun x => f x - g x)).sum = (l.map f).sum - (l.map g).sum := by
  induction l with
  | nil => simp
  | cons x xs ih => simp [ih]; ring

theorem map_sum_neg {α : Type} (l : List α) (f : α → Int) :
    (l.map (fun x => -f x)).sum = -(l.map f).sum := by
  induction l with
  | nil => simp
  | cons x xs ih => simp [ih]; ring

/-! ### The aggregator loop computes the specification sums -/

theorem sumChargeAmounts_eq (cs : List ItemCharge) (h : chargesPresent cs = true) :
    sumChargeAmounts cs = .ok (chargeAmounts cs) := by
  induction cs with
  | nil => simp [sumChargeAmounts, chargeAmounts]
  | cons c cs ih =>
      simp only [chargesPresent, List.all_cons, Bool.and_eq_true] at h
      obtain ⟨a, ha⟩ := Option.isSome_iff_exists.mp h.1
      simp [sumChargeAmounts, keyGet, ha, ih h.2, chargeAmounts]

theorem sumFeeAmounts_eq (fs : List ItemFee) (h : feesPresent fs = true) :
    sumFeeAmounts fs = .ok (feeAmounts fs) := by
  induction fs with
  | nil => simp [sumFeeAmounts, feeAmounts]
  | cons f fs ih =>
      simp only [feesPresent, List.all_cons, Bool.and_eq_true] at h
      obtain ⟨a, ha⟩ := Option.isSome_iff_exists.mp h.1
      simp [sumFeeAmounts, keyGet, ha, ih h.2, feeAmounts]

theorem sumPromotionAmounts_eq (ps : List Promotion) (h : promosPresent ps = true) :
    sumPromotionAmounts ps = .ok (promoAmounts ps) := by
  induction ps with
  | nil => simp [sumPromotionAmounts, promoAmounts]
  | cons p ps ih =>
      simp only [promosPresent, List.all_cons, Bool.and_eq_true] at h
      obtain ⟨a, ha⟩ := Option.isSome_iff_exists.mp h.1
      simp [sumPromotionAmounts, keyGet, ha, ih h.2, promoAmounts]

theorem shipmentItemDelta_eq (it : ShipmentItem) (h : shipItemPresent it = true) :
    shipmentItemDelta it =
      .ok (chargeAmounts it.itemChargeList - feeAmounts it.itemFeeList
            - promoAmounts it.promotionList) := by
  simp only [shipItemPresent, Bool.and_eq_true] at h
  simp [shipmentItemDelta, sumChargeAmounts_eq _ h.1.1, sumFeeAmounts_eq _ h.1.2,
    sumPromotionAmounts_eq _ h.2]

theorem shipmentItemsDelta_eq (its : List ShipmentItem)
    (h : its.all shipItemPresent = true) :
    shipmentItemsDelta its =
      .ok ((its.map (fun it => chargeAmounts it.itemChargeList - feeAmounts it.itemFeeList
            - promoAmounts it.promotionList)).sum) := by
  induction its with
  | nil => simp [shipmentItemsDelta]
  | cons it its ih =>
      simp only [List.all_cons, Bool.and_eq_true] at h
      simp [shipmentItemsDelta, shipmentItemDelta_eq _ h.1, ih h.2]

theorem shipmentEventsFold_eq (oid : String) (es : List ShipmentEvent)
    (h : es.all (fun e => !(e.amazonOrderId == some oid)
          || e.shipmentItemList.all shipItemPresent) = true) :
    shipmentEventsFold oid es =
      .ok (((es.filter (fun e => e.amazonOrderId == some oid)).map
              (fun e => (e.shipmentItemList.map
                (fun it => chargeAmounts it.itemChargeList - feeAmounts it.itemFeeList
                  - promoAmounts it.promotionList)).sum)).sum,
           es.any (fun e => e.amazonOrderId == some oid)) := by
  induction es with
  | nil => simp [shipmentEventsFold]
  | cons e es ih =>
      simp only [List.all_cons, Bool.and_eq_true] at h
      by_cases hm : e.amazonOrderId = some oid
      · have hpres : e.shipmentItemList.all shipItemPresent = true := by
          have h1 := h.1
          simpa [hm] using h1
        simp [shipmentEventsFold, hm, shipmentItemsDelta_eq _ hpres, ih h.2,
          List.filter_cons, List.any_cons]
      · simp [shipmentEventsFold, hm, ih h.2, List.filter_cons, List.any_cons]

theorem refundItemDelta_eq (it : RefundItem) (h : refundItemPresent it = true) :
    refundItemDelta it =
      .ok (chargeAmounts it.itemChargeAdjustmentList - feeAmounts it.itemFeeAdjustmentList) := by
  simp only [refundItemPresent, Bool.and_eq_true] at h
  simp [refundItemDelta, sumChargeAmounts_eq _ h.1, sumFeeAmounts_eq _ h.2]

theorem refundItemsDelta_eq (its : List RefundItem)
    (h : its.all refundItemPresent = true) :
    refundItemsDelta its =
      .ok ((its.map (fun it => chargeAmounts it.itemChargeAdjustmentList
            - feeAmounts it.itemFeeAdjustmentList)).sum) := by
  induction its with
  | nil => simp [refundItemsDelta]
  | cons it its ih =>
      simp only [List.all_cons, Bool.and_eq_true] at h
      simp [refundItemsDelta, refundItemDelta_eq _ h.1, ih h.2]

theorem refundEventsFold_eq (oid : String) (es : List RefundEvent)
    (h : es.all (fun e => !(e.amazonOrderId == some oid)
          || e.refundItemList.all refundItemPresent) = true) :
    refundEventsFold oid es =
      .ok (((es.filter (fun e => e.amazonOrderId == some oid)).map
              (fun e => (e.refundItemList.map
                (fun it => chargeAmounts it.itemChargeAdjustmentList
                  - feeAmounts it.itemFeeAdjustmentList)).sum)).sum,
           es.any (fun e => e.amazonOrderId == some oid)) := by
  induction es with
  | nil => simp [refundEventsFold]
  | cons e es ih =>
      simp only [List.all_cons, Bool.and_eq_true] at h
      by_cases hm : e.amazonOrderId = some oid
      · have hpres : e.refundItemList.all refundItemPresent = true := by
          have h1 := h.1
          simpa [hm] using h1
        simp [refundEventsFold, hm, refundItemsDelta_eq _ hpres, ih h.2,
          List.filter_cons, List.any_cons]
      · simp [refundEventsFold, hm, ih h.2, List.filter_cons, List.any_cons]

theorem adjustmentItemsFold_eq (oid : String) (l : List AdjustmentItem) :
    adjustmentItemsFold oid l =
      (((l.filter (fun a => a.amazonOrderId == some oid)).map
          (fun a => a.quantityAdjustment.getD 0)).sum,
       l.any (fun a => a.amazonOrderId == some oid)) := by
  induction l with
  | nil => simp [adjustmentItemsFold]
  | cons a l ih =>
      by_cases hm : a.amazonOrderId = some oid
      · simp [adjustmentItemsFold, hm, ih, List.filter_cons, List.any_cons]
      · simp [adjustmentItemsFold, hm, ih, List.filter_cons, List.any_cons]

theorem adjustmentEventsFold_eq (oid : String) (es : List AdjustmentEvent) :
    adjustmentEventsFold oid es =
      ((es.map (fun e => (((e.adjustmentItemList.filter
            (fun a => a.amazonOrderId == some oid)).map
            (fun a => a.quantityAdjustment.getD 0))).sum)).sum,
       es.any (fun e => e.adjustmentItemList.any (fun a => a.amazonOrderId == some oid))) := by
  induction es with
  | nil => simp [adjustmentEventsFold]
  | cons e es ih =>
      simp [adjustmentEventsFold, adjustmentItemsFold_eq, ih]

theorem serviceFeeEventsFold_eq (oid : String) (es : List ServiceFeeEvent)
    (h : es.all (fun e => !(e.amazonOrderId == some oid) || feesPresent e.feeList) = true) :
    serviceFeeEventsFold oid es =
      .ok (-(((es.filter (fun e => e.amazonOrderId == some oid)).map
              (fun e => feeAmounts e.feeList)).sum),
           es.any (fun e => e.amazonOrderId == some oid)) := by
  induction es with
  | nil => simp [serviceFeeEventsFold]
  | cons e es ih =>
      simp only [List.all_cons, Bool.and_eq_true] at h
      by_cases hm : e.amazonOrderId = some oid
      · have hpres : feesPresent e.feeList = true := by
          have h1 := h.1
          simpa [hm] using h1
        simp [serviceFeeEventsFold, hm, sumFeeAmounts_eq _ hpres, ih h.2,
          List.filter_cons, List.any_cons]
        ring
      · simp [serviceFeeEventsFold, hm, ih h.2, List.filter_cons, List.any_cons]

theorem chargebackEventsFold_eq (oid : String) (es : List ChargebackEvent)
    (h : es.all (fun e => !(e.amazonOrderId == some oid)
          || chargesPresent e.chargebackAdjustmentList) = true) :
    chargebackEventsFold oid es =
      .ok (((es.filter (fun e => e.amazonOrderId == some oid)).map
              (fun e => chargeAmounts e.chargebackAdjustmentList)).sum,
           es.any (fun e => e.amazonOrderId == some oid)) := by
  induction es with
  | nil => simp [chargebackEventsFold]
  | cons e es ih =>
      simp only [List.all_cons, Bool.and_eq_true] at h
      by_cases hm : e.amazonOrderId = some oid
      · have hpres : chargesPresent e.chargebackAdjustmentList = true := by
          have h1 := h.1
          simpa [hm] using h1
        simp [chargebackEventsFold, hm, sumChargeAmounts_eq _ hpres, ih h.2,
          List.filter_cons, List.any_cons]
      · simp [chargebackEventsFold, hm, ih h.2, List.filter_cons, List.any_cons]

/-- Per-page value of the signed eight-category sum. -/
def pageNetVal (oid : String) (fe : FinancialEvents) : Int :=
  pageShipCharges oid fe - pageShipFees oid fe - pageShipPromos oid fe
    + pageRefundCharges oid fe - pageRefundFees oid fe
    + pageAdjustments oid fe - pageServiceFees oid fe + pageChargebacks oid fe

theorem pageDelta_eq (oid : String) (fe : FinancialEvents) (h : pagePresent oid fe = true) :
    pageDelta oid fe = Except.ok (pageNetVal oid fe, pageFound oid fe) := by
  simp only [pagePresent, Bool.and_eq_true] at h
  obtain ⟨⟨⟨hs, hr⟩, hf⟩, hc⟩ := h
  simp only [pageDelta, shipmentEventsFold_eq oid _ hs, refundEventsFold_eq oid _ hr,
    adjustmentEventsFold_eq, serviceFeeEventsFold_eq oid _ hf,
    chargebackEventsFold_eq oid _ hc, ok_bind]
  simp only [pageNetVal, pageShipCharges, pageShipFees, pageShipPromos,
    pageRefundCharges, pageRefundFees, pageAdjustments, pageServiceFees,
    pageChargebacks, pageFound, map_sum_sub, Except.ok.injEq, Prod.mk.injEq]
  constructor
  · ring
  · trivial

theorem groupScan_eq (oid : String) (pages : List FinancialEvents)
    (h : pagesPresent oid pages = true) :
    groupScan oid pages =
      Except.ok ((pages.map (pageNetVal oid)).sum, spec_found oid pages) := by
  induction pages with
  | nil => simp [groupScan, spec_found]
  | cons p ps ih =>
      simp only [pagesPresent, List.all_cons, Bool.and_eq_true] at h
      have ih2 := ih h.2
      simp [groupScan, pageDelta_eq oid p h.1, ih2, spec_found, List.any_cons]

theorem spec_net_payout_eq (oid : String) (pages : List FinancialEvents) :
    spec_net_payout oid pages = (pages.map (pageNetVal oid)).sum := by
  induction pages with
  | nil => simp [spec_net_payout]
  | cons p ps ih =>
      simp only [List.map_cons, List.sum_cons, ← ih]
      simp only [spec_net_payout, List.map_cons, List.sum_cons, pageNetVal]
      ring

/-! ### Concrete data for witnesses and counterexamples -/

/-- A group with one Shipment event for order X: item charge 100, item fee
10, promotion 5. -/
def exampleShipment : ShipmentEvent :=
  { amazonOrderId := some "X",
    shipmentItemList :=
      [{ sellerSKU := some "SKU-1",
         itemChargeList := [{ chargeType := some "Principal", chargeAmount := some 100 }],
         itemFeeList := [{ feeType := some "FBAPerUnitFulfillmentFee", feeAmount := some 10 }],
         promotionList := [{ promotionAmount := some 5 }] }] }

def examplePages : List FinancialEvents := [{ shipmentEventList := [exampleShipment] }]

def exampleGroup : FinancialEventGroup :=
  { financialEventGroupId := some "SETTLE-1", pages := examplePages }

/-- A group whose events payload is falsy (skipped with continue). -/
def emptyGroup : FinancialEventGroup :=
  { financialEventGroupId := some "SETTLE-0", pages := [] }

/-- A group containing a Shipment event for order X whose only charge has
no ChargeAmount.CurrencyAmount value. -/
def missingAmountGroup : FinancialEventGroup :=
  { financialEventGroupId := some "SETTLE-2",
    pages := [{ shipmentEventList :=
      [{ amazonOrderId := some "X",
         shipmentItemList :=
           [{ itemChargeList := [{ chargeType := some "Principal", chargeAmount := none }] }] }] }] }

/-- C1: for every target order id, check_amazon_settlement_available nets a
settlement group as the signed sum of the eight event categories over the
events matching the order id (plus item charges, minus item fees, minus
promotions, plus refund charge adjustments, minus refund fee adjustments,
plus adjustment amounts, minus service fees, plus chargeback amounts), and
a group containing one Shipment event for the order with item charge 100,
item fee 10 and promotion 5 yields net payout 85 paired with that group's
settlement identifier. -/
theorem claim_C1 :
    (∀ (oid : String) (pages : List FinancialEvents), pagesPresent oid pages = true →
        groupScan oid pages = Except.ok (spec_net_payout oid pages, spec_found oid pages)) ∧
    check_amazon_settlement_available "X" [exampleGroup] =
      Except.ok (85, some "SETTLE-1") := by
  constructor
  · intro oid pages h
    rw [groupScan_eq oid pages h, spec_net_payout_eq]
  · rfl

/-- Witness for C1: the universal part applied to the concrete example
pages, presence discharged by evaluation. -/
theorem claim_C1_witness : groupScan "X" examplePages = Except.ok (85, true) := by
  have h := claim_C1.1 "X" examplePages (by decide)
  rw [h]
  rfl

/-- A group the scan passes over: its events payload is falsy, or its scan
finishes with found unset or a non-positive matched total. -/
def groupSkips (oid : String) (g : FinancialEventGroup) : Bool :=
  g.pages.isEmpty ||
    match groupScan oid g.pages with
    | .ok (t, f) => !(f && t > 0)
    | .error _ => false

theorem check_append_skips (oid : String) (gs1 rest : List FinancialEventGroup)
    (h : ∀ g' ∈ gs1, groupSkips oid g' = true) :
    check_amazon_settlement_available oid (gs1 ++ rest) =
      check_amazon_settlement_available oid rest := by
  induction gs1 with
  | nil => rfl
  | cons g1 gs1 ih =>
      have hg1 : groupSkips oid g1 = true := h g1 (by simp)
      have hrest : ∀ g' ∈ gs1, groupSkips oid g' = true := fun g' hm => h g' (by simp [hm])
      cases h1 : g1.pages.isEmpty with
      | true =>
          simp only [List.cons_append, check_amazon_settlement_available, h1, if_true]
          exact ih hrest
      | false =>
          cases hscan : groupScan oid g1.pages with
          | error e =>
              exfalso
              simp [groupSkips, h1, hscan] at hg1
          | ok p =>
              obtain ⟨t1, f1⟩ := p
              have hor : f1 = false ∨ t1 ≤ 0 := by
                simpa [groupSkips, h1, hscan] using hg1
              have hcond : (f1 && decide (t1 > 0)) = false := by
                rcases hor with hf | ht
                · simp [hf]
                · simp [not_lt.2 ht]
              simp only [List.cons_append, check_amazon_settlement_available, h1,
                Bool.false_eq_true, if_false, hscan, ok_bind, hcond]
              exact ih hrest

/-- C2: check_amazon_settlement_available returns, for the first group in
fetch order whose matched total is positive with the found flag set after
all of that group's pages, the pair of that total and the group's
settlement id, scanning no further groups; if every group is passed over
it returns (0, none); total and found are reset per group. -/
theorem claim_C2 :
    (∀ (oid : String) (gs1 : List FinancialEventGroup) (g : FinancialEventGroup)
        (gs2 : List FinancialEventGroup) (t : Int),
        (∀ g' ∈ gs1, groupSkips oid g' = true) →
        g.pages.isEmpty = false →
        groupScan oid g.pages = Except.ok (t, true) →
        0 < t →
        check_amazon_settlement_available oid (gs1 ++ g :: gs2) =
          Except.ok (t, g.financialEventGroupId)) ∧
    (∀ (oid : String) (gs : List FinancialEventGroup),
        (∀ g' ∈ gs, groupSkips oid g' = true) →
        check_amazon_settlement_available oid gs = Except.ok (0, none)) := by
  constructor
  · intro oid gs1 g gs2 t hskip hne hscan ht
    rw [check_append_skips oid gs1 (g :: gs2) hskip]
    simp [check_amazon_settlement_available, hne, hscan, ht]
  · intro oid gs hskip
    have h := check_append_skips oid gs [] hskip
    simpa using h

/-- Witness for C2: an initial skipped group, then the example group with
total 85, then a further group that would even fail to scan; the scan
stops at the example group. -/
theorem claim_C2_witness :
    check_amazon_settlement_available "X" ([emptyGroup] ++ exampleGroup :: [missingAmountGroup]) =
      Except.ok (85, some "SETTLE-1") := by
  have h := claim_C2.1 "X" [emptyGroup] exampleGroup [missingAmountGroup] 85
    (by intro g' hm; simp at hm; subst hm; rfl)
    (by rfl) (by rfl) (by decide)
  simpa [exampleGroup] using h

/-- Counterexample to C3 as stated: a settlement group with a Shipment
event for order X whose charge has no amount makes the aggregator fail
with a KeyError instead of contributing 0. -/
theorem claim_C3_counterexample :
    check_amazon_settlement_available "X" [missingAmountGroup] =
      Except.error "KeyError: ChargeAmount" := rfl

/-! ### Python-level errors raised by the embedded code -/

inductive PyErr where
  | attributeError (method : String)
  | keyError (key : String)
  | doesNotExist (doctype : String) (nm : String)
  | frappeThrow (msg : String)
  | typeError (msg : String)
  deriving DecidableEq, Repr

/-! ### ERP documents (only the fields amazon_repository.py touches) -/

structure TaxRow where
  charge_type : String := "Actual"
  account_head : String := ""
  tax_amount : Int := 0
  description : String := ""
  deriving DecidableEq, Repr

structure SOItem where
  name : String := ""
  item_code : Option String := none
  item_name : Option String := none
  description : Option String := none
  qty : Int := 0
  rate : Int := 0
  warehouse : String := ""
  uom : String := ""
  conversion_factor : Int := 1
  deriving DecidableEq, Repr

structure SalesOrder where
  name : String := ""
  amazon_order_id : String := ""
  marketplace_id : Option String := none
  customer : String := ""
  company : String := ""
  currency : String := ""
  conversion_rate : Int := 1
  transaction_date : Option String := none
  delivery_date : Option String := none
  purchase_date : Option String := none
  latest_ship_date : Option String := none
  items : List SOItem := []
  taxes : List TaxRow := []
  docstatus : Nat := 0
  custom_amazon_order_status : Option String := none
  deriving DecidableEq, Repr

structure DNItem where
  item_code : Option String := none
  item_name : Option String := none
  description : Option String := none
  qty : Int := 0
  rate : Int := 0
  warehouse : String := ""
  uom : String := ""
  conversion_factor : Int := 1
  against_sales_order : String := ""
  so_detail : String := ""
  allow_zero_valuation_rate : Nat := 0
  deriving DecidableEq, Repr

structure DeliveryNote where
  name : String := ""
  company : String := ""
  customer : String := ""
  currency : String := ""
  custom_against_sales_order : String := ""
  custom_amazon_order_id : String := ""
  items : List DNItem := []
  docstatus : Nat := 0
  custom_amazon_order_status : Option String := none
  deriving DecidableEq, Repr

structure SIItem where
  item_code : Option String := none
  qty : Int := 0
  rate : Int := 0
  description : Option String := none
  warehouse : String := ""
  uom : String := ""
  conversion_factor : Int := 1
  sales_order : String := ""
  so_detail : String := ""
  deriving DecidableEq, Repr

structure SalesInvoice where
  name : String := ""
  company : String := ""
  customer : String := ""
  currency : String := ""
  conversion_rate : Int := 1
  custom_against_sales_order : String := ""
  custom_amazon_order_id : String := ""
  due_date : String := ""
  items : List SIItem := []
  taxes : List TaxRow := []
  docstatus : Nat := 0
  custom_amazon_settlement_id : Option String := none
  deriving DecidableEq, Repr

structure PERef where
  reference_doctype : String := ""
  reference_name : String := ""
  allocated_amount : Int := 0
  deriving DecidableEq, Repr

structure PaymentEntry where
  name : String := ""
  payment_type : String := ""
  company : String := ""
  party_type : String := ""
  party : String := ""
  paid_amount : Int := 0
  paid_from_account_currency : String := ""
  received_amount : Int := 0
  received_to_account_currency : String := ""
  source_exchange_rate : Int := 1
  reference_no : String := ""
  reference_date : String := ""
  custom_amazon_settlement_id : Option String := none
  paid_to : String := ""
  references : List PERef := []
  docstatus : Nat := 0
  deriving DecidableEq, Repr

structure Customer where
  name : String := ""
  customer_name : String := ""
  customer_group : String := ""
  territory : String := ""
  customer_type : String := ""
  deriving DecidableEq, Repr

structure Address where
  address_line1 : String := ""
  city : Option String := none
  pincode : Option String := none
  state : Option String := none
  country : String := ""
  address_type : String := ""
  links : List (String × String) := []
  deriving DecidableEq, Repr

structure Account where
  name : String := ""
  account_name : String := ""
  company : String := ""
  parent_account : String := ""
  deriving DecidableEq, Repr

/-- The Item doctype: item_code plus the dynamically set mapped fields. -/
structure ErpItem where
  item_code : Option String := none
  fields : List (String × Option String) := []
  item_group : Option String := none
  brand : Option String := none
  manufacturer : Option String := none
  deriving DecidableEq, Repr

def ErpItem.setField (it : ErpItem) (f : String) (v : Option String) : ErpItem :=
  if f = "item_code" then { it with item_code := v }
  else { it with fields := it.fields ++ [(f, v)] }

def ErpItem.getField (it : ErpItem) (f : String) : Option String :=
  if f = "item_code" then it.item_code
  else
    match (it.fields.filter (fun p => p.1 == f)).getLast? with
    | some p => p.2
    | none => none

structure EcommerceItem where
  integration : String := ""
  erpnext_item_code : Option String := none
  integration_item_code : String := ""
  sku : String := ""
  deriving DecidableEq, Repr

/-! ### Account settings (Amazon SP API Settings doc) -/

structure FieldsMapRow where
  use_to_find_item_code : Bool := false
  amazon_field : String := ""
  item_field : String := ""
  deriving DecidableEq, Repr

structure Settings where
  enable_sync : Bool := true
  max_retry_limit : Nat := 3
  company : String := "Co"
  warehouse : String := "WH"
  customer_group : String := ""
  territory : String := ""
  customer_type : String := ""
  market_place_account_group : String := ""
  taxes_charges : Option String := none
  amazon_payout_account : Option String := none
  create_item_if_not_exists : Bool := false
  amazon_fields_map : List FieldsMapRow := []
  deriving DecidableEq, Repr

/-- The ERP document store plus the settings doc; logs records
frappe.log_error calls as (title, message) pairs. -/
structure ErpState where
  settings : Settings := {}
  salesOrders : List SalesOrder := []
  deliveryNotes : List DeliveryNote := []
  salesInvoices : List SalesInvoice := []
  paymentEntries : List PaymentEntry := []
  erpItems : List ErpItem := []
  ecommerceItems : List EcommerceItem := []
  customers : List Customer := []
  addresses : List Address := []
  accounts : List Account := []
  logs : List (String × String) := []
  nameCounter : Nat := 0
  deriving DecidableEq, Repr

/-! ### The effect monad: state threading with Python exceptions.

An exception carries the state reached so far, because Python side effects
performed before a raise persist. -/

def M (α : Type) : Type := ErpState → Except PyErr α × ErpState

instance : Monad M where
  pure a := fun s => (Except.ok a, s)
  bind x f := fun s =>
    match x s with
    | (Except.ok a, s1) => f a s1
    | (Except.error e, s1) => (Except.error e, s1)

def M.get : M ErpState := fun s => (Except.ok s, s)

def M.modify (f : ErpState → ErpState) : M Unit := fun s => (Except.ok (), f s)

def M.throw {α : Type} (e : PyErr) : M α := fun s => (Except.error e, s)

/-- Models a try/except block: on an exception the handler runs from the
state the body reached. -/
def M.tryCatch {α : Type} (x : M α) (handler : PyErr → M α) : M α := fun s =>
  match x s with
  | (Except.ok a, s1) => (Except.ok a, s1)
  | (Except.error e, s1) => handler e s1

@[simp]
theorem M.run_pure {α : Type} (a : α) (s : ErpState) :
    (pure a : M α) s = (Except.ok a, s) := rfl

@[simp]
theorem M.run_bind {α β : Type} (x : M α) (f : α → M β) (s : ErpState) :
    (x >>= f) s =
      match x s with
      | (Except.ok a, s1) => f a s1
      | (Except.error e, s1) => (Except.error e, s1) := rfl

@[simp]
theorem M.run_get (s : ErpState) : M.get s = (Except.ok s, s) := rfl

@[simp]
theorem M.run_modify (f : ErpState → ErpState) (s : ErpState) :
    M.modify f s = (Except.ok (), f s) := rfl

@[simp]
theorem M.run_throw {α : Type} (e : PyErr) (s : ErpState) :
    (M.throw e : M α) s = (Except.error e, s) := rfl

@[simp]
theorem M.run_tryCatch {α : Type} (x : M α) (handler : PyErr → M α) (s : ErpState) :
    M.tryCatch x handler s =
      match x s with
      | (Except.ok a, s1) => (Except.ok a, s1)
      | (Except.error e, s1) => handler e s1 := rfl

/-- Appends a frappe.log_error entry. -/
def M.log (title msg : String) : M Unit :=
  M.modify (fun s => { s with logs := s.logs ++ [(title, msg)] })

/-- Draws a fresh document name (frappe assigns names on insert). -/
def freshName (tag : String) : M String := do
  let st ← M.get
  M.modify (fun s => { s with nameCounter := s.nameCounter + 1 })
  pure (tag ++ toString st.nameCounter)

/-! ### Marketplace order payloads -/

/-- One OrderItems entry.  String-valued keys read with .get live in
fields; the numeric keys the code reads are modelled directly, collapsing
the Amount sub-dict with its 0 default. -/
structure OrderItem where
  fields : List (String × String) := []
  quantityOrdered : Int := 0
  itemPrice : Int := 0
  itemTax : Int := 0
  shippingPrice : Int := 0
  shippingTax : Int := 0
  deriving DecidableEq, Repr

def OrderItem.get (oi : OrderItem) (k : String) : Option String :=
  (oi.fields.find? (fun p => p.1 == k)).map (fun p => p.2)

structure ShippingAddress where
  addressLine1 : Option String := none
  city : Option String := none
  postalCode : Option String := none
  stateOrRegion : Option String := none
  countryCode : Option String := none
  deriving DecidableEq, Repr

structure AmazonOrder where
  amazonOrderId : Option String := none
  orderStatus : Option String := none
  buyerEmail : Option String := none
  shippingAddress : Option ShippingAddress := none
  marketplaceId : Option String := none
  purchaseDate : Option String := none
  latestShipDate : Option String := none
  deriving DecidableEq, Repr

structure CatalogAttrs where
  productGroup : Option String := none
  brand : Option String := none
  manufacturer : Option String := none
  deriving DecidableEq, Repr

/-- The external collaborators: each marketplace read is modelled as a
deterministic oracle returning the full pagination chain (the success path
of call_sp_api_method), and the date and exchange-rate utilities are
oracles too. -/
structure Env where
  order_items_pages : String → List (List OrderItem)
  financial_events_by_order : String → List FinancialEvents
  financial_event_groups : List FinancialEventGroup
  catalog : String → CatalogAttrs
  exchange_rate : String → String → Int
  today : String
  company_currency : String → String
  orders_pages : List (List AmazonOrder)

/-- Python str() of a value that may be None, as used in f-strings. -/
def fmtOpt (o : Option String) : String := o.getD "None"

/-- Models frappe.utils.add_days on opaque date strings. -/
def add_days (d : String) (n : Int) : String := d ++ "+" ++ toString n

/-- Embedding of map_country_code (lines 93-114). -/
def map_country_code (code : Option String) : String :=
  match code with
  | none => ""
  | some c =>
      if c = "" then ""
      else
        match ([("US", "United States"), ("CA", "Canada"), ("MX", "Mexico"),
                ("GB", "United Kingdom"), ("UK", "United Kingdom"), ("DE", "Germany"),
                ("FR", "France"), ("IT", "Italy"), ("ES", "Spain"), ("IN", "India"),
                ("JP", "Japan"), ("AU", "Australia"), ("AE", "United Arab Emirates"),
                ("SA", "Saudi Arabia")].find? (fun p => p.1 == c)) with
        | some p => p.2
        | none => c

/-- Embedding of get_account (lines 80-91): look up an account named
Amazon X, create it under the configured group when absent.  The created
account's record name is modelled as its account name. -/
def get_account (nm : String) : M String := do
  let st ← M.get
  match st.accounts.find? (fun a => a.account_name == "Amazon " ++ nm) with
  | some a => pure a.name
  | none => do
      M.modify (fun s =>
        { s with accounts := s.accounts ++
            [{ name := "Amazon " ++ nm, account_name := "Amazon " ++ nm,
               company := s.settings.company,
               parent_account := s.settings.market_place_account_group }] })
      pure ("Amazon " ++ nm)

/-! ### get_charges_and_fees (lines 120-192): tax-line synthesis from the
per-order Finances events.  Amounts are read with
.get("ChargeAmount", {}).get("CurrencyAmount", 0) or 0, so a missing
amount is 0; zero amounts and the Principal charge type produce no line. -/

structure ChargesFees where
  charges : List TaxRow := []
  fees : List TaxRow := []
  deriving DecidableEq, Repr

def charges_rows (sku : Option String) : List ItemCharge → M (List TaxRow)
  | [] => pure []
  | c :: cs => do
      let amount := c.chargeAmount.getD 0
      let rows ←
        if amount ≠ 0 ∧ c.chargeType ≠ some "Principal" then do
          let acct ← get_account (fmtOpt c.chargeType)
          pure [{ charge_type := "Actual", account_head := acct, tax_amount := amount,
                  description := fmtOpt c.chargeType ++ " for " ++ fmtOpt sku }]
        else pure ([] : List TaxRow)
      let more ← charges_rows sku cs
      pure (rows ++ more)

def fees_rows (sku : Option String) : List ItemFee → M (List TaxRow)
  | [] => pure []
  | f :: fs => do
      let amount := f.feeAmount.getD 0
      let rows ←
        if amount ≠ 0 then do
          let acct ← get_account (fmtOpt f.feeType)
          pure [{ charge_type := "Actual", account_head := acct, tax_amount := amount,
                  description := fmtOpt f.feeType ++ " for " ++ fmtOpt sku }]
        else pure ([] : List TaxRow)
      let more ← fees_rows sku fs
      pure (rows ++ more)

def charges_fees_items : List ShipmentItem → M ChargesFees
  | [] => pure {}
  | it :: its => do
      let c ← charges_rows it.sellerSKU it.itemChargeList
      let f ← fees_rows it.sellerSKU it.itemFeeList
      let rest ← charges_fees_items its
      pure { charges := c ++ rest.charges, fees := f ++ rest.fees }

def charges_fees_events : List ShipmentEvent → M ChargesFees
  | [] => pure {}
  | e :: es => do
      let r ← charges_fees_items e.shipmentItemList
      let rest ← charges_fees_events es
      pure { charges := r.charges ++ rest.charges, fees := r.fees ++ rest.fees }

def charges_fees_pages : List FinancialEvents → M ChargesFees
  | [] => pure {}
  | p :: ps => do
      let r ← charges_fees_events p.shipmentEventList
      let rest ← charges_fees_pages ps
      pure { charges := r.charges ++ rest.charges, fees := r.fees ++ rest.fees }

def get_charges_and_fees (env : Env) (order_id : String) : M ChargesFees := do
  let pages := env.financial_events_by_order order_id
  if pages.isEmpty then do
    M.log "Amazon SP API" ("No financial events payload for order " ++ order_id)
    pure {}
  else
    charges_fees_pages pages

/-! ### Item creation and lookup (lines 198-265) -/

/-- Embedding of create_item: build the Item from the fields map and the
catalog attributes, insert it, then insert the Ecommerce Item link. The
ASIN and SellerSKU reads use direct indexing and raise KeyError when
absent. -/
def create_item (env : Env) (order_item : OrderItem) : M (Option String) := do
  let asin ←
    match order_item.get "ASIN" with
    | some v => pure v
    | none => M.throw (.keyError "ASIN")
  let attrs := env.catalog asin
  let st ← M.get
  let base : ErpItem := {}
  let mapped := st.settings.amazon_fields_map.foldl
    (fun it m =>
      let it1 := if m.use_to_find_item_code
        then { it with item_code := order_item.get m.amazon_field } else it
      if m.item_field ≠ "" then it1.setField m.item_field (order_item.get m.amazon_field)
      else it1)
    base
  let withAttrs :=
    { mapped with
        item_group := match attrs.productGroup with
          | some g => some g
          | none => mapped.item_group,
        brand := match attrs.brand with
          | some b => some b
          | none => mapped.brand,
        manufacturer := match attrs.manufacturer with
          | some f => some f
          | none => mapped.manufacturer }
  M.modify (fun s => { s with erpItems := s.erpItems ++ [withAttrs] })
  let sku ←
    match order_item.get "SellerSKU" with
    | some v => pure v
    | none => M.throw (.keyError "SellerSKU")
  M.modify (fun s =>
    { s with ecommerceItems := s.ecommerceItems ++
        [{ integration := "Amazon", erpnext_item_code := withAttrs.item_code,
           integration_item_code := asin, sku := sku }] })
  pure withAttrs.item_code

/-- frappe.db.get_value("Item", \x7bfield: value\x7d, "item_code"): the
item_code of the first Item whose field equals the value; an item whose
item_code is unset is a falsy result. -/
def findItemCode (st : ErpState) (f v : String) : Option String :=
  match st.erpItems.find? (fun it => it.getField f == some v) with
  | some it => it.item_code
  | none => none

/-- The loop of get_item_code (lines 240-262): rows not flagged for lookup
or with a null marketplace value are skipped; the first usable row either
returns an existing item, raises when creation is disabled, or breaks out
to create_item. -/
def get_item_code_from_map (env : Env) (order_item : OrderItem) :
    List FieldsMapRow → M (Option String)
  | [] => create_item env order_item
  | m :: ms => do
      if !m.use_to_find_item_code then get_item_code_from_map env order_item ms
      else
        match order_item.get m.amazon_field with
        | none => get_item_code_from_map env order_item ms
        | some v => do
            let st ← M.get
            match findItemCode st m.item_field v with
            | some code => pure (some code)
            | none =>
                if !st.settings.create_item_if_not_exists then
                  M.throw (.frappeThrow ("Item not found using field "
                    ++ m.item_field ++ " = " ++ v))
                else create_item env order_item

def get_item_code (env : Env) (order_item : OrderItem) : M (Option String) := do
  let st ← M.get
  get_item_code_from_map env order_item st.settings.amazon_fields_map

/-! ### get_order_items (lines 271-326) -/

structure FinalItem where
  item_code : Option String := none
  item_name : Option String := none
  description : Option String := none
  rate : Int := 0
  qty : Int := 0
  warehouse : String := ""
  amazon_item_price : Int := 0
  amazon_item_tax : Int := 0
  amazon_shipping : Int := 0
  amazon_shipping_tax : Int := 0
  deriving DecidableEq, Repr

def order_items_page (env : Env) : List OrderItem → M (List FinalItem)
  | [] => pure []
  | oi :: rest => do
      if oi.quantityOrdered ≤ 0 then order_items_page env rest
      else do
        let qty := oi.quantityOrdered
        let item_price := oi.itemPrice
        let per_item_shipping := if qty ≠ 0 then oi.shippingPrice / qty else 0
        let rate := item_price + per_item_shipping
        let code ← get_item_code env oi
        let st ← M.get
        let more ← order_items_page env rest
        pure ({ item_code := code, item_name := oi.get "SellerSKU",
                description := oi.get "Title", rate := rate, qty := qty,
                warehouse := st.settings.warehouse,
                amazon_item_price := item_price, amazon_item_tax := oi.itemTax,
                amazon_shipping := oi.shippingPrice,
                amazon_shipping_tax := oi.shippingTax } :: more)

def order_items_pages (env : Env) : List (List OrderItem) → M (List FinalItem)
  | [] => pure []
  | p :: ps => do
      let a ← order_items_page env p
      let b ← order_items_pages env ps
      pure (a ++ b)

def get_order_items (env : Env) (order_id : String) : M (List FinalItem) :=
  order_items_pages env (env.order_items_pages order_id)

/-! ### Document lookups (frappe.db.get_value / frappe.get_doc) -/

def get_sales_order_doc (nm : String) : M SalesOrder := do
  let st ← M.get
  match st.salesOrders.find? (fun so => so.name == nm) with
  | some so => pure so
  | none => M.throw (.doesNotExist "Sales Order" nm)

def get_sales_invoice_doc (nm : String) : M SalesInvoice := do
  let st ← M.get
  match st.salesInvoices.find? (fun si => si.name == nm) with
  | some si => pure si
  | none => M.throw (.doesNotExist "Sales Invoice" nm)

def get_delivery_note_doc (nm : String) : M DeliveryNote := do
  let st ← M.get
  match st.deliveryNotes.find? (fun dn => dn.name == nm) with
  | some dn => pure dn
  | none => M.throw (.doesNotExist "Delivery Note" nm)

/-- Existence lookup for a Delivery Note against a Sales Order with
docstatus below cancelled (lines 516-521 and 918-922). -/
def existing_delivery_note (st : ErpState) (so_name : String) : Option String :=
  (st.deliveryNotes.find?
    (fun d => d.custom_against_sales_order == so_name && d.docstatus < 2)).map
    (fun d => d.name)

/-- Existence lookup for a Sales Invoice against a Sales Order (lines
569-575 and 934-938). -/
def existing_sales_invoice (st : ErpState) (so_name : String) : Option String :=
  (st.salesInvoices.find?
    (fun d => d.custom_against_sales_order == so_name && d.docstatus < 2)).map
    (fun d => d.name)

/-- Existence lookup for a Payment Entry by settlement id (lines 953-960). -/
def existing_payment_entry (st : ErpState) (sid : String) : Option String :=
  (st.paymentEntries.find?
    (fun p => p.custom_amazon_settlement_id == some sid && p.docstatus < 2)).map
    (fun p => p.name)

/-- Existence lookup for a Sales Order by amazon order id (lines 343-349
and 1017-1021). -/
def existing_sales_order (st : ErpState) (oid : Option String) : Option String :=
  match oid with
  | some v => (st.salesOrders.find? (fun so => so.amazon_order_id == v)).map (fun so => so.name)
  | none => none

/-! ### create_delivery_note_from_so (lines 514-561) -/

def create_delivery_note_from_so (so_name : String) : M (Option String) :=
  M.tryCatch
    (do
      let st ← M.get
      match existing_delivery_note st so_name with
      | some nm => pure (some nm)
      | none => do
          let so ← get_sales_order_doc so_name
          let dnName ← freshName "DN-"
          let dnItems := so.items.map (fun it =>
            ({ item_code := it.item_code, item_name := it.item_name,
               description := it.description, qty := it.qty, rate := it.rate,
               warehouse := it.warehouse, uom := it.uom,
               conversion_factor := it.conversion_factor,
               against_sales_order := so.name, so_detail := it.name,
               allow_zero_valuation_rate := 1 } : DNItem))
          M.modify (fun s =>
            { s with deliveryNotes := s.deliveryNotes ++
                [{ name := dnName, company := so.company, customer := so.customer,
                   currency := so.currency, custom_against_sales_order := so.name,
                   custom_amazon_order_id := so.amazon_order_id, items := dnItems,
                   docstatus := 1 }] })
          pure (some dnName))
    (fun _ => do
      M.log "Amazon DN Error" ("DN Error for SO " ++ so_name)
      pure none)

/-! ### create_sales_invoice_from_so (lines 567-625) -/

def create_sales_invoice_from_so (env : Env) (so_name : String) : M (Option String) :=
  M.tryCatch
    (do
      let st ← M.get
      match existing_sales_invoice st so_name with
      | some nm => pure (some nm)
      | none => do
          let so ← get_sales_order_doc so_name
          let siName ← freshName "SI-"
          let siItems := so.items.map (fun it =>
            ({ item_code := it.item_code, qty := it.qty, rate := it.rate,
               description := it.description, warehouse := it.warehouse,
               uom := it.uom, conversion_factor := it.conversion_factor,
               sales_order := so.name, so_detail := it.name } : SIItem))
          let siTaxes := so.taxes.map (fun t =>
            ({ charge_type := t.charge_type, account_head := t.account_head,
               description := t.description, tax_amount := t.tax_amount } : TaxRow))
          M.modify (fun s =>
            { s with salesInvoices := s.salesInvoices ++
                [{ name := siName, company := so.company, customer := so.customer,
                   currency := so.currency, conversion_rate := so.conversion_rate,
                   custom_against_sales_order := so.name,
                   custom_amazon_order_id := so.amazon_order_id,
                   due_date := add_days env.today 7, items := siItems,
                   taxes := siTaxes, docstatus := 1 }] })
          pure (some siName))
    (fun _ => do
      M.log "Amazon SI Error" ("SI Error for SO " ++ so_name)
      pure none)

/-! ### create_payment_entry_from_si (lines 771-828) -/

/-- The Payment Entry document that create_payment_entry_from_si inserts
and submits: Receive type, multi-currency amounts (rate 1 when the
invoice currency equals the company currency), reference to the invoice,
the settlement id recorded on the entry. -/
def built_payment_entry (env : Env) (si : SalesInvoice) (payout : Int)
    (settlement_id : String) (payout_acct : String) (peName : String) : PaymentEntry :=
  let company_currency := env.company_currency si.company
  let amazon_currency := si.currency
  let exchange_rate :=
    if amazon_currency = company_currency then 1
    else env.exchange_rate amazon_currency company_currency
  let received_amount := payout * exchange_rate
  { name := peName, payment_type := "Receive", company := si.company,
    party_type := "Customer", party := si.customer, paid_amount := payout,
    paid_from_account_currency := amazon_currency,
    received_amount := received_amount,
    received_to_account_currency := company_currency,
    source_exchange_rate := exchange_rate, reference_no := si.name,
    reference_date := env.today,
    custom_amazon_settlement_id := some settlement_id,
    paid_to := payout_acct,
    references := [{ reference_doctype := "Sales Invoice",
                     reference_name := si.name,
                     allocated_amount := received_amount }],
    docstatus := 1 }

def create_payment_entry_from_si (env : Env) (si_name : String) (payout : Int)
    (settlement_id : String) : M (Option String) := do
  let si ← get_sales_invoice_doc si_name
  if si.custom_amazon_settlement_id = some settlement_id then pure none
  else do
    let st ← M.get
    let payout_acct ←
      match st.settings.amazon_payout_account with
      | none => M.throw (.frappeThrow "Set Amazon Payout Account in Amazon SP API Settings")
      | some a => pure a
    let peName ← freshName "PE-"
    M.modify (fun s =>
      { s with paymentEntries := s.paymentEntries ++
          [built_payment_entry env si payout settlement_id payout_acct peName] })
    M.modify (fun s =>
      { s with salesInvoices := s.salesInvoices.map (fun x =>
          if x.name == si.name
          then { x with custom_amazon_settlement_id := some settlement_id } else x) })
    pure (some peName)

/-! ### update_sales_invoice (lines 830-860) and update_delivery_note
(lines 862-892).  Both call a method that does not exist anywhere in the
repository (update_invoice_taxes resp. update_delivery_items); the
resulting AttributeError is swallowed by their own try/except. -/

def update_sales_invoice (env : Env) (si_name : String) (amazon_order : AmazonOrder) :
    M Unit :=
  M.tryCatch
    (do
      let si ← get_sales_invoice_doc si_name
      let order_id := amazon_order.amazonOrderId
      let new_due_date := add_days env.today 7
      let si1 := if si.due_date ≠ new_due_date then { si with due_date := new_due_date } else si
      let st ← M.get
      if st.settings.taxes_charges.isSome then do
        let _ ← get_charges_and_fees env (fmtOpt order_id)
        M.throw (.attributeError "update_invoice_taxes")
      else pure ()
      M.modify (fun s =>
        { s with salesInvoices := s.salesInvoices.map (fun x =>
            if x.name == si_name then si1 else x) })
      if si1.docstatus = 0 then
        M.modify (fun s =>
          { s with salesInvoices := s.salesInvoices.map (fun x =>
              if x.name == si_name then { x with docstatus := 1 } else x) })
      else pure ())
    (fun _ => M.log "Amazon Invoice Update Error"
      ("Failed to update Sales Invoice " ++ si_name))

def update_delivery_note (env : Env) (dn_name : String) (amazon_order : AmazonOrder) :
    M Unit :=
  M.tryCatch
    (do
      let dn ← get_delivery_note_doc dn_name
      let order_id := amazon_order.amazonOrderId
      let status := amazon_order.orderStatus
      let dn1 := { dn with custom_amazon_order_status := status }
      if status = some "PartiallyShipped" then do
        let _ ← get_order_items env (fmtOpt order_id)
        M.throw (.attributeError "update_delivery_items")
      else pure ()
      M.modify (fun s =>
        { s with deliveryNotes := s.deliveryNotes.map (fun x =>
            if x.name == dn_name then dn1 else x) })
      if dn1.docstatus = 0 then
        M.modify (fun s =>
          { s with deliveryNotes := s.deliveryNotes.map (fun x =>
              if x.name == dn_name then { x with docstatus := 1 } else x) })
      else pure ())
    (fun _ => M.log "Amazon DN Update Error"
      ("Failed to update Delivery Note " ++ dn_name))

/-- Lifts the pure settlement scan into the effect monad; a KeyError from
the scan is re-raised as the Python exception it is. -/
def check_settlement (env : Env) (order_id : String) : M (Int × Option String) :=
  fun st =>
    match check_amazon_settlement_available order_id env.financial_event_groups with
    | .ok r => (Except.ok r, st)
    | .error msg => (Except.error (.keyError msg), st)

/-! ### The status-gated document logic of
process_order_documents_based_on_status (lines 915-969), factored out as a
named function so it can be reasoned about on its own. -/

/-- The settlement fragment of the Sales Invoice branch (lines 948-969):
on a fresh invoice, consult the aggregator result; with a positive payout
and a settlement id, create a Payment Entry unless one already exists for
that settlement id. -/
def settlement_step (env : Env) (order_id : Option String) (siNm : String)
    (payout : Int) (settlement_id : Option String) : M Unit := do
  match settlement_id with
  | some sid =>
      if 0 < payout then do
        let st2 ← M.get
        match existing_payment_entry st2 sid with
        | some _ => pure ()
        | none => do
            let _ ← create_payment_entry_from_si env siNm payout sid
            pure ()
      else
        (M.log "Amazon Settlement Check"
          ("Settlement NOT available for Order " ++ fmtOpt order_id))
  | none =>
      (M.log "Amazon Settlement Check"
        ("Settlement NOT available for Order " ++ fmtOpt order_id))

def order_document_logic (env : Env) (amazon_order : AmazonOrder) (so_name : String) :
    M Unit := do
  let order_id := amazon_order.amazonOrderId
  let status := amazon_order.orderStatus
  -- Delivery Note logic
  if status = some "Shipped" ∨ status = some "PartiallyShipped" then do
    let st ← M.get
    match existing_delivery_note st so_name with
    | some dn => update_delivery_note env dn amazon_order
    | none => do
        let _ ← create_delivery_note_from_so so_name
        pure ()
  else pure ()
  -- Sales Invoice logic
  if status = some "Shipped" ∨ status = some "InvoiceUnconfirmed"
      ∨ status = some "PartiallyShipped" then do
    let st ← M.get
    match existing_sales_invoice st so_name with
    | some siNm => update_sales_invoice env siNm amazon_order
    | none => do
        let created ← create_sales_invoice_from_so env so_name
        match created with
        | none => pure ()
        | some siNm => do
            let (payout, settlement_id) ← check_settlement env (fmtOpt order_id)
            settlement_step env order_id siNm payout settlement_id
  else pure ()

/-- Embedding of process_order_documents_based_on_status (lines 898-969).
Neither handle_order_cancellation nor process_refunds_and_returns is
defined anywhere in the repository, so the attribute lookup on self raises
AttributeError at the call site. -/
def process_order_documents_based_on_status (env : Env) (amazon_order : AmazonOrder)
    (so_name : String) : M Unit := do
  let status := amazon_order.orderStatus
  let _so ← get_sales_order_doc so_name
  if status = some "Canceled" then
    M.throw (.attributeError "handle_order_cancellation")
  else do
    M.throw (.attributeError "process_refunds_and_returns")
    order_document_logic env amazon_order so_name

/-! ### create_sales_order (lines 332-508) -/

def create_sales_order (env : Env) (order : AmazonOrder) : M (Option String) := do
  match order.amazonOrderId with
  | none => pure none
  | some order_id => do
      let st0 ← M.get
      match existing_sales_order st0 (some order_id) with
      | some nm => pure (some nm)
      | none => do
          let items ← get_order_items env order_id
          if items.isEmpty then pure none
          else do
            -- customer
            let buyer_email :=
              match order.buyerEmail with
              | some e => e
              | none => "Buyer-" ++ order_id
            let st1 ← M.get
            let customer ←
              match st1.customers.find? (fun c => c.name == buyer_email) with
              | some c => pure c.name
              | none => do
                  M.modify (fun s =>
                    { s with customers := s.customers ++
                        [{ name := buyer_email, customer_name := buyer_email,
                           customer_group := s.settings.customer_group,
                           territory := s.settings.territory,
                           customer_type := s.settings.customer_type }] })
                  pure buyer_email
            -- address
            (match order.shippingAddress with
             | some shipping =>
                 M.modify (fun s =>
                   { s with addresses := s.addresses ++
                       [{ address_line1 := shipping.addressLine1.getD "Not Provided",
                          city := shipping.city, pincode := shipping.postalCode,
                          state := shipping.stateOrRegion,
                          country := map_country_code shipping.countryCode,
                          address_type := "Shipping",
                          links := [("Customer", customer)] }] })
             | none => pure ())
            -- totals
            let total_item_tax := (items.map (fun it => it.amazon_item_tax)).sum
            let total_ship := (items.map (fun it => it.amazon_shipping)).sum
            let total_ship_tax := (items.map (fun it => it.amazon_shipping_tax)).sum
            let total_item_amount :=
              (items.map (fun it => it.amazon_item_price * it.qty)).sum
            -- taxes and charges
            let taxes ←
              match st1.settings.taxes_charges with
              | none => pure ([] : List TaxRow)
              | some acct => do
                  let cf ← get_charges_and_fees env order_id
                  if !cf.charges.isEmpty || !cf.fees.isEmpty then
                    pure (cf.charges ++ cf.fees)
                  else do
                    let l1 : List TaxRow :=
                      if 0 < total_item_tax then
                        [{ charge_type := "Actual", account_head := acct,
                           tax_amount := total_item_tax,
                           description := "Sales Tax from Amazon" }]
                      else []
                    let l2 ←
                      if 0 < total_ship then do
                        let st2 ← M.get
                        let shipping_account :=
                          match st2.accounts.find?
                            (fun a => a.account_name == "Freight and Forwarding Charges") with
                          | some a => a.name
                          | none => acct
                        pure ([{ charge_type := "Actual",
                                 account_head := shipping_account,
                                 tax_amount := total_ship,
                                 description := "Shipping Charge from Amazon" }] : List TaxRow)
                      else pure ([] : List TaxRow)
                    let l3 : List TaxRow :=
                      if 0 < total_ship_tax then
                        [{ charge_type := "Actual", account_head := acct,
                           tax_amount := total_ship_tax,
                           description := "Shipping Tax from Amazon" }]
                      else []
                    pure (l1 ++ l2 ++ l3)
            M.log "Amazon Order Breakdown"
              ("Amazon Order " ++ order_id ++ " Breakdown: Items="
                ++ toString total_item_amount ++ ", Shipping=" ++ toString total_ship
                ++ ", Item Tax=" ++ toString total_item_tax ++ ", Shipping Tax="
                ++ toString total_ship_tax ++ ", Total="
                ++ toString (total_item_amount + total_ship + total_item_tax
                      + total_ship_tax))
            -- insert + submit
            let soName ← freshName "SO-"
            let soItems := items.enum.map (fun pr =>
              ({ name := soName ++ "i" ++ toString pr.1,
                 item_code := pr.2.item_code, item_name := pr.2.item_name,
                 description := pr.2.description, qty := pr.2.qty, rate := pr.2.rate,
                 warehouse := pr.2.warehouse } : SOItem))
            M.modify (fun s =>
              { s with salesOrders := s.salesOrders ++
                  [{ name := soName, amazon_order_id := order_id,
                     marketplace_id := order.marketplaceId, customer := customer,
                     company := s.settings.company,
                     currency := env.company_currency s.settings.company,
                     conversion_rate := 1,
                     transaction_date := order.purchaseDate,
                     delivery_date := order.latestShipDate, items := soItems,
                     taxes := taxes, docstatus := 1 }] })
            -- after SO creation, process DN / SI / Payment based on status
            process_order_documents_based_on_status env order soName
            pure (some soName)

/-! ### update_order_items (lines 1179-1209) and update_sales_order
(lines 1048-1093).  update_sales_order calls update_taxes_and_charges,
which exists nowhere in the repository; its try/except swallows the
AttributeError. -/

def update_order_items (so : SalesOrder) (updated_items : List FinalItem) : SalesOrder :=
  let existing_codes := so.items.map (fun it => it.item_code)
  updated_items.foldl
    (fun acc u =>
      if existing_codes.contains u.item_code then
        { acc with items := acc.items.map (fun it =>
            if it.item_code == u.item_code then { it with qty := u.qty, rate := u.rate }
            else it) }
      else
        { acc with items := acc.items ++
            [{ name := "", item_code := u.item_code, item_name := u.item_name,
               description := u.description, qty := u.qty, rate := u.rate,
               warehouse := u.warehouse }] })
    so

def update_sales_order (env : Env) (so_name : String) (amazon_order : AmazonOrder) :
    M Unit :=
  M.tryCatch
    (do
      let so ← get_sales_order_doc so_name
      let order_id := amazon_order.amazonOrderId
      let current_status := amazon_order.orderStatus
      let so1 ←
        if so.custom_amazon_order_status ≠ current_status then do
          M.log "Amazon Order Status Update"
            ("Order " ++ fmtOpt order_id ++ " status changed")
          pure { so with custom_amazon_order_status := current_status }
        else pure so
      let so2 := { so1 with
        marketplace_id := amazon_order.marketplaceId
        purchase_date := amazon_order.purchaseDate
        latest_ship_date := amazon_order.latestShipDate }
      let updated_items ← get_order_items env (fmtOpt order_id)
      let so3 := update_order_items so2 updated_items
      let st ← M.get
      if st.settings.taxes_charges.isSome then do
        let _ ← get_charges_and_fees env (fmtOpt order_id)
        M.throw (.attributeError "update_taxes_and_charges")
      else pure ()
      M.modify (fun s =>
        { s with salesOrders := s.salesOrders.map (fun x =>
            if x.name == so_name then so3 else x) })
      if so3.docstatus = 0 then
        M.modify (fun s =>
          { s with salesOrders := s.salesOrders.map (fun x =>
              if x.name == so_name then { x with docstatus := 1 } else x) })
      else pure ())
    (fun _ => M.log "Amazon Order Update Error"
      ("Failed to update Sales Order " ++ so_name))

/-! ### get_orders batch loop (lines 980-1045).  The per-order body has no
exception handler: an uncaught error from sales-order creation or from the
status orchestration propagates out of the whole loop. -/

def orders_in_page (env : Env) : List AmazonOrder → List String → M (List String)
  | [], acc => pure acc
  | order :: os, acc => do
      let st ← M.get
      let so_name ←
        match existing_sales_order st order.amazonOrderId with
        | some nm => do
            update_sales_order env nm order
            pure (some nm)
        | none => create_sales_order env order
      match so_name with
      | some nm => do
          process_order_documents_based_on_status env order nm
          orders_in_page env os (acc ++ [nm])
      | none => orders_in_page env os acc

def get_orders_loop (env : Env) : List (List AmazonOrder) → List String → M (List String)
  | [], acc => pure acc
  | page :: rest, acc => do
      let acc1 ← orders_in_page env page acc
      get_orders_loop env rest acc1

def get_orders (env : Env) (created_after : String) : M (List String) := do
  let _ := created_after
  if env.orders_pages.isEmpty then pure []
  else get_orders_loop env env.orders_pages []

/-! ### Retry wrapper call_sp_api_method (lines 41-61)

The loop runs the remote operation up to max_retry_limit times (or once
when the setting is falsy), collecting failures in a dict keyed by error
code, last description winning.  On exhaustion it sets enable_sync to 0
and saves the settings doc, builds the joined multi-line message — and
then evaluates the name written as an underscore applied to the message
template.  That underscore is the for-loop variable of this function (an
int), because the loop statement shadows the module-level translation
import, so Python raises TypeError instead of throwing the aggregated
message. -/

structure SPAPIErr where
  error : String
  error_description : String
  deriving DecidableEq, Repr

/-- State of the settings doc as call_sp_api_method sees it: the sync flag
and the trace of persisted flag values (one entry per save call). -/
structure RetrySt where
  enable_sync : Bool := true
  max_retry_limit : Nat := 3
  saves : List Bool := []
  deriving DecidableEq, Repr

/-- Python dict assignment errors[k] = v: update in place when the key
exists, append otherwise. -/
def errorsInsert (m : List (String × String)) (k v : String) : List (String × String) :=
  if m.any (fun p => p.1 == k) then m.map (fun p => if p.1 == k then (k, v) else p)
  else m ++ [(k, v)]

/-- The for-loop: attempt i, return the payload on success, record the
error and continue otherwise; when the budget runs out, surface the
collected error dict. -/
def run_attempts (attempts : Nat → Except SPAPIErr String)
    (errors : List (String × String)) (i : Nat) :
    Nat → Except (List (String × String)) String
  | 0 => .error errors
  | n + 1 =>
      match attempts i with
      | .ok p => .ok p
      | .error e =>
          run_attempts attempts (errorsInsert errors e.error e.error_description) (i + 1) n

def joinBr : List String → String
  | [] => ""
  | [x] => x
  | x :: xs => x ++ "<br>" ++ joinBr xs

def call_sp_api_method (attempts : Nat → Except SPAPIErr String) (st : RetrySt) :
    Except PyErr String × RetrySt :=
  let max_retries := if st.max_retry_limit = 0 then 1 else st.max_retry_limit
  match run_attempts attempts [] 0 max_retries with
  | .ok p => (Except.ok p, st)
  | .error errs =>
      let st1 : RetrySt :=
        { st with
          enable_sync := false
          saves := st.saves ++ [false] }
      let _msg := joinBr (errs.map (fun p => p.1 ++ ": " ++ p.2))
      (Except.error (.typeError "int object is not callable"), st1)

/-! ### Behaviour of the orchestrator -/

/-- Every run of process_order_documents_based_on_status raises before any
document logic: DoesNotExist when the sales order is missing, otherwise
the AttributeError of the first missing method on the taken branch. -/
theorem process_run (env : Env) (o : AmazonOrder) (so : String) (st : ErpState) :
    process_order_documents_based_on_status env o so st =
      (match st.salesOrders.find? (fun x => x.name == so) with
       | none => (Except.error (.doesNotExist "Sales Order" so), st)
       | some _ =>
           (Except.error (.attributeError
             (if o.orderStatus = some "Canceled" then "handle_order_cancellation"
              else "process_refunds_and_returns")), st)) := by
  by_cases hc : o.orderStatus = some "Canceled" <;>
    cases h : st.salesOrders.find? (fun x => x.name == so) <;>
      simp [process_order_documents_based_on_status, get_sales_order_doc, h, hc,
        M.run_bind, M.run_get, M.run_throw]

instance {ε α : Type} [DecidableEq ε] [DecidableEq α] : DecidableEq (Except ε α) :=
  fun x y =>
    match x, y with
    | .ok a, .ok b =>
        if h : a = b then isTrue (by rw [h]) else isFalse (by simp [h])
    | .error e, .error f =>
        if h : e = f then isTrue (by rw [h]) else isFalse (by simp [h])
    | .ok _, .error _ => isFalse (by simp)
    | .error _, .ok _ => isFalse (by simp)

/-- A minimal environment for concrete runs. -/
def envEmpty : Env :=
  { order_items_pages := fun _ => []
    financial_events_by_order := fun _ => []
    financial_event_groups := []
    catalog := fun _ => {}
    exchange_rate := fun _ _ => 1
    today := "2026-01-01"
    company_currency := fun _ => "USD"
    orders_pages := [] }

def soA : SalesOrder := { name := "SO-A", amazon_order_id := "A-1", docstatus := 1 }

def stWithSO : ErpState := { salesOrders := [soA] }

def shippedOrderA : AmazonOrder :=
  { amazonOrderId := some "A-1", orderStatus := some "Shipped" }

def canceledOrderA : AmazonOrder :=
  { amazonOrderId := some "A-1", orderStatus := some "Canceled" }

/-- C10: process_order_documents_based_on_status always invokes a method
defined nowhere in the class or module (handle_order_cancellation for
Canceled orders, process_refunds_and_returns otherwise) before any
Delivery Note, Sales Invoice or Payment Entry logic, so every invocation
raises, the state is untouched, and when the sales order exists the error
is exactly the attribute-lookup failure of the missing method. -/
theorem claim_C10 :
    ∀ (env : Env) (o : AmazonOrder) (so : String) (st : ErpState),
      (process_order_documents_based_on_status env o so st).2 = st ∧
      (∃ e, (process_order_documents_based_on_status env o so st).1 = Except.error e) ∧
      ((st.salesOrders.find? (fun x => x.name == so)).isSome →
        (process_order_documents_based_on_status env o so st).1 =
          Except.error (.attributeError
            (if o.orderStatus = some "Canceled" then "handle_order_cancellation"
             else "process_refunds_and_returns"))) := by
  intro env o so st
  rw [process_run]
  cases h : st.salesOrders.find? (fun x => x.name == so) <;> simp

/-- Witness for C10 at a concrete shipped order whose sales order exists. -/
theorem claim_C10_witness :
    (process_order_documents_based_on_status envEmpty shippedOrderA "SO-A" stWithSO).1 =
        Except.error (.attributeError "process_refunds_and_returns") ∧
    (process_order_documents_based_on_status envEmpty shippedOrderA "SO-A" stWithSO).2 =
        stWithSO := by
  have h := claim_C10 envEmpty shippedOrderA "SO-A" stWithSO
  refine ⟨?_, h.1⟩
  have h3 := h.2.2 (by rfl)
  simpa [shippedOrderA] using h3

/-- C7: for a Canceled order the orchestration pass takes the cancellation
branch and stops there: the state (and so every Delivery Note, Sales
Invoice and Payment Entry) is untouched and the status-gated document
logic is never reached — the run ends at the cancellation handling call. -/
theorem claim_C7 :
    ∀ (env : Env) (o : AmazonOrder) (so : String) (st : ErpState),
      o.orderStatus = some "Canceled" →
      (process_order_documents_based_on_status env o so st).2 = st ∧
      ((process_order_documents_based_on_status env o so st).1 =
          Except.error (.doesNotExist "Sales Order" so) ∨
        (process_order_documents_based_on_status env o so st).1 =
          Except.error (.attributeError "handle_order_cancellation")) := by
  intro env o so st hc
  rw [process_run]
  cases h : st.salesOrders.find? (fun x => x.name == so) <;> simp [hc]

/-- Witness for C7 at a concrete Canceled order. -/
theorem claim_C7_witness :
    (process_order_documents_based_on_status envEmpty canceledOrderA "SO-A" stWithSO).2 =
        stWithSO ∧
    (process_order_documents_based_on_status envEmpty canceledOrderA "SO-A" stWithSO).1 =
        Except.error (.attributeError "handle_order_cancellation") := by
  have h := claim_C7 envEmpty canceledOrderA "SO-A" stWithSO (by rfl)
  refine ⟨h.1, ?_⟩
  rcases h.2 with h2 | h2
  · exact absurd h2 (by decide)
  · exact h2

/-- Each orchestration pass leaves the document store unchanged. -/
theorem process_state_eq (env : Env) (o : AmazonOrder) (so : String) (st : ErpState) :
    (process_order_documents_based_on_status env o so st).2 = st := by
  rw [process_run]
  cases st.salesOrders.find? (fun x => x.name == so) <;> rfl

/-- C6: running the per-order orchestration twice on an unchanged order
leaves the Delivery Note, Sales Invoice and Payment Entry counts unchanged
after the second pass, and every creation step short-circuits on its
existence lookup: an existing active Delivery Note or Sales Invoice for
the sales order is returned as-is without creating, and a Payment Entry
creation for a settlement id the invoice already records is a no-op. -/
theorem claim_C6 :
    (∀ (env : Env) (o : AmazonOrder) (so : String) (st : ErpState),
      ((process_order_documents_based_on_status env o so
          (process_order_documents_based_on_status env o so st).2).2).deliveryNotes.length =
        ((process_order_documents_based_on_status env o so st).2).deliveryNotes.length ∧
      ((process_order_documents_based_on_status env o so
          (process_order_documents_based_on_status env o so st).2).2).salesInvoices.length =
        ((process_order_documents_based_on_status env o so st).2).salesInvoices.length ∧
      ((process_order_documents_based_on_status env o so
          (process_order_documents_based_on_status env o so st).2).2).paymentEntries.length =
        ((process_order_documents_based_on_status env o so st).2).paymentEntries.length) ∧
    (∀ (st : ErpState) (so nm : String), existing_delivery_note st so = some nm →
      create_delivery_note_from_so so st = (Except.ok (some nm), st)) ∧
    (∀ (env : Env) (st : ErpState) (so nm : String), existing_sales_invoice st so = some nm →
      create_sales_invoice_from_so env so st = (Except.ok (some nm), st)) ∧
    (∀ (env : Env) (st : ErpState) (siNm : String) (payout : Int) (sid : String)
        (inv : SalesInvoice),
      st.salesInvoices.find? (fun x => x.name == siNm) = some inv →
      inv.custom_amazon_settlement_id = some sid →
      create_payment_entry_from_si env siNm payout sid st = (Except.ok none, st)) := by
  refine ⟨?_, ?_, ?_, ?_⟩
  · intro env o so st
    rw [process_state_eq, process_state_eq]
    exact ⟨rfl, rfl, rfl⟩
  · intro st so nm h
    simp [create_delivery_note_from_so, M.run_tryCatch, h]
  · intro env st so nm h
    simp [create_sales_invoice_from_so, M.run_tryCatch, h]
  · intro env st siNm payout sid inv hfind hrec
    simp [create_payment_entry_from_si, get_sales_invoice_doc, hfind, hrec]

def dnB : DeliveryNote :=
  { name := "DN-B", custom_against_sales_order := "SO-A", docstatus := 1 }

def siB : SalesInvoice :=
  { name := "SI-B", custom_against_sales_order := "SO-A",
    custom_amazon_settlement_id := some "S9", docstatus := 1 }

def stC6 : ErpState :=
  { salesOrders := [soA], deliveryNotes := [dnB], salesInvoices := [siB] }

/-- Witness for C6 at a concrete state holding one active document of each
kind. -/
theorem claim_C6_witness :
    create_delivery_note_from_so "SO-A" stC6 = (Except.ok (some "DN-B"), stC6) ∧
    create_sales_invoice_from_so envEmpty "SO-A" stC6 = (Except.ok (some "SI-B"), stC6) ∧
    create_payment_entry_from_si envEmpty "SI-B" 85 "S9" stC6 = (Except.ok none, stC6) ∧
    ((process_order_documents_based_on_status envEmpty shippedOrderA "SO-A"
        (process_order_documents_based_on_status envEmpty shippedOrderA "SO-A" stC6).2).2).deliveryNotes.length =
      ((process_order_documents_based_on_status envEmpty shippedOrderA "SO-A" stC6).2).deliveryNotes.length :=
  ⟨claim_C6.2.1 stC6 "SO-A" "DN-B" (by rfl),
   claim_C6.2.2.1 envEmpty stC6 "SO-A" "SI-B" (by rfl),
   claim_C6.2.2.2 envEmpty stC6 "SI-B" 85 "S9" siB (by rfl) (by rfl),
   (claim_C6.1 envEmpty shippedOrderA "SO-A" stC6).1⟩

/-! ### The settlement linkage invariant (claim C5) -/

/-- Number of active Payment Entries carrying a given settlement id. -/
def pe_count (pes : List PaymentEntry) (sid : String) : Nat :=
  (pes.filter (fun p => p.custom_amazon_settlement_id == some sid && p.docstatus < 2)).length

def settlement_pe_count (st : ErpState) (sid : String) : Nat :=
  pe_count st.paymentEntries sid

theorem pe_count_append (l1 l2 : List PaymentEntry) (sid : String) :
    pe_count (l1 ++ l2) sid = pe_count l1 sid + pe_count l2 sid := by
  simp [pe_count, List.filter_append]

theorem existing_payment_entry_none (st : ErpState) (sid : String)
    (h : existing_payment_entry st sid = none) :
    pe_count st.paymentEntries sid = 0 := by
  simp only [existing_payment_entry, Option.map_eq_none'] at h
  have h2 := List.find?_eq_none.mp h
  simp only [pe_count]
  rw [List.filter_eq_nil_iff.mpr]
  · rfl
  · intro a ha
    exact fun hp => by simpa [hp] using h2 a ha

theorem find?_map_name_pres (l : List SalesInvoice) (siNm : String)
    (f : SalesInvoice → SalesInvoice) (hf : ∀ x, (f x).name = x.name) :
    (l.map f).find? (fun x => x.name == siNm) =
      (l.find? (fun x => x.name == siNm)).map f := by
  induction l with
  | nil => rfl
  | cons x xs ih =>
      cases hp : x.name == siNm with
      | true => simp [List.find?, hf, hp]
      | false => simp [List.find?, hf, hp, ih]

/-- Closed form of one run of create_payment_entry_from_si. -/
theorem create_pe_run (env : Env) (siNm : String) (payout : Int) (sid : String)
    (st : ErpState) :
    create_payment_entry_from_si env siNm payout sid st =
      match st.salesInvoices.find? (fun x => x.name == siNm) with
      | none => (Except.error (.doesNotExist "Sales Invoice" siNm), st)
      | some si =>
          if si.custom_amazon_settlement_id = some sid then (Except.ok none, st)
          else
            match st.settings.amazon_payout_account with
            | none =>
                (Except.error
                  (.frappeThrow "Set Amazon Payout Account in Amazon SP API Settings"), st)
            | some acct =>
                (Except.ok (some ("PE-" ++ toString st.nameCounter)),
                 { st with
                     nameCounter := st.nameCounter + 1
                     paymentEntries := st.paymentEntries ++
                       [built_payment_entry env si payout sid acct
                         ("PE-" ++ toString st.nameCounter)]
                     salesInvoices := st.salesInvoices.map (fun x =>
                       if x.name == si.name
                       then { x with custom_amazon_settlement_id := some sid } else x) }) := by
  cases hfind : st.salesInvoices.find? (fun x => x.name == siNm) with
  | none =>
      simp [create_payment_entry_from_si, get_sales_invoice_doc, hfind]
  | some si =>
      by_cases hrec : si.custom_amazon_settlement_id = some sid
      · simp [create_payment_entry_from_si, get_sales_invoice_doc, hfind, hrec]
      · cases hacct : st.settings.amazon_payout_account with
        | none =>
            simp [create_payment_entry_from_si, get_sales_invoice_doc, hfind, hrec, hacct]
        | some acct =>
            simp [create_payment_entry_from_si, get_sales_invoice_doc, hfind, hrec, hacct,
              freshName]


/-- The state produced by a successful create_payment_entry_from_si. -/
def pe_success_state (env : Env) (si : SalesInvoice) (payout : Int) (sid : String)
    (acct : String) (st : ErpState) : ErpState :=
  { st with
      nameCounter := st.nameCounter + 1
      paymentEntries := st.paymentEntries ++
        [built_payment_entry env si payout sid acct ("PE-" ++ toString st.nameCounter)]
      salesInvoices := st.salesInvoices.map (fun x =>
        if x.name == si.name
        then { x with custom_amazon_settlement_id := some sid } else x) }

theorem create_pe_missing (env : Env) (siNm : String) (payout : Int) (sid : String)
    (st : ErpState) (h : st.salesInvoices.find? (fun x => x.name == siNm) = none) :
    create_payment_entry_from_si env siNm payout sid st =
      (Except.error (.doesNotExist "Sales Invoice" siNm), st) := by
  simp [create_payment_entry_from_si, get_sales_invoice_doc, h]

theorem create_pe_recorded (env : Env) (siNm : String) (payout : Int) (sid : String)
    (st : ErpState) (si : SalesInvoice)
    (h : st.salesInvoices.find? (fun x => x.name == siNm) = some si)
    (hrec : si.custom_amazon_settlement_id = some sid) :
    create_payment_entry_from_si env siNm payout sid st = (Except.ok none, st) := by
  simp [create_payment_entry_from_si, get_sales_invoice_doc, h, hrec]

theorem create_pe_noacct (env : Env) (siNm : String) (payout : Int) (sid : String)
    (st : ErpState) (si : SalesInvoice)
    (h : st.salesInvoices.find? (fun x => x.name == siNm) = some si)
    (hrec : ¬si.custom_amazon_settlement_id = some sid)
    (hacct : st.settings.amazon_payout_account = none) :
    create_payment_entry_from_si env siNm payout sid st =
      (Except.error (.frappeThrow "Set Amazon Payout Account in Amazon SP API Settings"),
       st) := by
  simp [create_payment_entry_from_si, get_sales_invoice_doc, h, hrec, hacct]

theorem create_pe_success (env : Env) (siNm : String) (payout : Int) (sid : String)
    (st : ErpState) (si : SalesInvoice) (acct : String)
    (h : st.salesInvoices.find? (fun x => x.name == siNm) = some si)
    (hrec : ¬si.custom_amazon_settlement_id = some sid)
    (hacct : st.settings.amazon_payout_account = some acct) :
    create_payment_entry_from_si env siNm payout sid st =
      (Except.ok (some ("PE-" ++ toString st.nameCounter)),
       pe_success_state env si payout sid acct st) := by
  simp [create_payment_entry_from_si, get_sales_invoice_doc, h, hrec, hacct,
    freshName, pe_success_state]

/-- C5: creating a Payment Entry for settlement S on invoice I records S
on I, and a later call of create_payment_entry_from_si for the same
invoice and settlement id is a no-op returning nothing; moreover the
orchestrator settlement step, which guards creation by an active Payment
Entry lookup on the settlement id, keeps the number of active Payment
Entries per settlement id at most one. -/
theorem claim_C5 :
    (∀ (env : Env) (siNm : String) (payout : Int) (sid : String) (st : ErpState)
        (pe : String) (st1 : ErpState) (payout2 : Int),
      create_payment_entry_from_si env siNm payout sid st = (Except.ok (some pe), st1) →
      (∃ inv, st1.salesInvoices.find? (fun x => x.name == siNm) = some inv ∧
        inv.custom_amazon_settlement_id = some sid) ∧
      create_payment_entry_from_si env siNm payout2 sid st1 = (Except.ok none, st1)) ∧
    (∀ (env : Env) (oid : Option String) (siNm : String) (payout : Int)
        (sopt : Option String) (st : ErpState) (sid : String),
      settlement_pe_count st sid ≤ 1 →
      settlement_pe_count ((settlement_step env oid siNm payout sopt) st).2 sid ≤ 1) := by
  constructor
  · intro env siNm payout sid st pe st1 payout2 hrun
    cases hfind : st.salesInvoices.find? (fun x => x.name == siNm) with
    | none =>
        rw [create_pe_missing env siNm payout sid st hfind] at hrun
        simp at hrun
    | some si =>
        by_cases hrec : si.custom_amazon_settlement_id = some sid
        · rw [create_pe_recorded env siNm payout sid st si hfind hrec] at hrun
          simp at hrun
        · cases hacct : st.settings.amazon_payout_account with
          | none =>
              rw [create_pe_noacct env siNm payout sid st si hfind hrec hacct] at hrun
              simp at hrun
          | some acct =>
              rw [create_pe_success env siNm payout sid st si acct hfind hrec hacct] at hrun
              have hst1 : pe_success_state env si payout sid acct st = st1 := by
                have := congrArg Prod.snd hrun
                simpa using this
              have hname : si.name = siNm := by
                have := List.find?_some hfind
                simpa using this
              have hfind1 : st1.salesInvoices.find? (fun x => x.name == siNm) =
                  some { si with custom_amazon_settlement_id := some sid } := by
                rw [← hst1]
                show ((st.salesInvoices.map _).find? _) = _
                rw [find?_map_name_pres st.salesInvoices siNm _
                  (fun x => by by_cases hx : (x.name == si.name) = true <;> simp [hx])]
                rw [hfind]
                simp [hname]
              refine ⟨⟨_, hfind1, rfl⟩, ?_⟩
              exact create_pe_recorded env siNm payout2 sid st1 _ hfind1 rfl
  · intro env oid siNm payout sopt st sid hle
    cases sopt with
    | none => simpa [settlement_step, M.log, settlement_pe_count] using hle
    | some s =>
        by_cases hp : 0 < payout
        · simp only [settlement_step, M.run_bind, M.run_get, if_pos hp]
          cases hex : existing_payment_entry st s with
          | some nm => simpa [settlement_pe_count] using hle
          | none =>
              cases hfind : st.salesInvoices.find? (fun x => x.name == siNm) with
              | none =>
                  simp only [create_pe_missing env siNm payout s st hfind, M.run_bind]
                  simpa [settlement_pe_count] using hle
              | some si =>
                  by_cases hrec : si.custom_amazon_settlement_id = some s
                  · simp only [create_pe_recorded env siNm payout s st si hfind hrec,
                      M.run_bind]
                    simpa [settlement_pe_count] using hle
                  · cases hacct : st.settings.amazon_payout_account with
                    | none =>
                        simp only [create_pe_noacct env siNm payout s st si hfind hrec hacct,
                          M.run_bind]
                        simpa [settlement_pe_count] using hle
                    | some acct =>
                        simp only [create_pe_success env siNm payout s st si acct hfind
                          hrec hacct, M.run_bind, M.run_pure]
                        simp only [settlement_pe_count, pe_success_state,
                          pe_count_append]
                        by_cases hsid : sid = s
                        · subst hsid
                          have h0 := existing_payment_entry_none st sid hex
                          simp only [settlement_pe_count] at h0
                          rw [h0]
                          simp [pe_count, built_payment_entry]
                        · have hz : pe_count
                              [built_payment_entry env si payout s acct
                                ("PE-" ++ toString st.nameCounter)] sid = 0 := by
                            simp only [pe_count, built_payment_entry]
                            simp [Ne.symm hsid]
                          rw [hz]
                          simpa [settlement_pe_count] using hle
        · simpa [settlement_step, if_neg hp, M.log, settlement_pe_count] using hle

def siC5 : SalesInvoice :=
  { name := "SI-1", company := "Co", customer := "Cust", currency := "USD",
    docstatus := 1 }

def stC5 : ErpState :=
  { settings := { amazon_payout_account := some "Amazon Payout" },
    salesInvoices := [siC5] }

def stC5after : ErpState :=
  (create_payment_entry_from_si envEmpty "SI-1" 85 "S1" stC5).2

/-- Witness for C5: a concrete creation records the settlement id on the
invoice, the repeated call is a no-op, and the orchestrator step keeps the
active count at one. -/
theorem claim_C5_witness :
    create_payment_entry_from_si envEmpty "SI-1" 85 "S1" stC5 =
      (Except.ok (some "PE-0"), stC5after) ∧
    create_payment_entry_from_si envEmpty "SI-1" 99 "S1" stC5after =
      (Except.ok none, stC5after) ∧
    settlement_pe_count
      ((settlement_step envEmpty (some "A-1") "SI-1" 85 (some "S1")) stC5after).2 "S1" ≤ 1 := by
  have h := claim_C5.1 envEmpty "SI-1" 85 "S1" stC5 "PE-0" stC5after 99 (by rfl)
  exact ⟨by rfl, h.2,
    claim_C5.2 envEmpty (some "A-1") "SI-1" 85 (some "S1") stC5after "S1" (by decide)⟩

/-! ### Claim C4: retry exhaustion behaviour of call_sp_api_method -/

def c4_attempts : Nat → Except SPAPIErr String := fun i =>
  if i = 0 then .error { error := "QuotaExceeded", error_description := "You exceeded your quota" }
  else .error { error := "InternalFailure", error_description := "Server error" }

def c4_attempts_repeat : Nat → Except SPAPIErr String := fun i =>
  if i = 0 then .error { error := "QuotaExceeded", error_description := "first" }
  else .error { error := "QuotaExceeded", error_description := "second" }

/-- C4, evaluated at the failing input: a successful attempt returns the
payload with the settings untouched; when every attempt of the budget
fails, the loop does collect every distinct error code (last description
winning for a repeated code) and the sync flag is cleared and persisted
exactly once — but the raised failure is a TypeError carrying none of the
collected codes, because the for-loop variable written as an underscore
shadows the imported translation function that the throw line applies. -/
theorem claim_C4 :
    call_sp_api_method (fun _ => .ok "payload")
        { enable_sync := true, max_retry_limit := 2, saves := [] } =
      (Except.ok "payload",
       { enable_sync := true, max_retry_limit := 2, saves := [] }) ∧
    run_attempts c4_attempts [] 0 2 =
      .error [("QuotaExceeded", "You exceeded your quota"),
              ("InternalFailure", "Server error")] ∧
    run_attempts c4_attempts_repeat [] 0 2 = .error [("QuotaExceeded", "second")] ∧
    call_sp_api_method c4_attempts
        { enable_sync := true, max_retry_limit := 2, saves := [] } =
      (Except.error (.typeError "int object is not callable"),
       { enable_sync := false, max_retry_limit := 2, saves := [false] }) :=
  ⟨rfl, rfl, rfl, rfl⟩

/-! ### Claim C8: error containment of the batch loop -/

def soB2 : SalesOrder := { name := "SO-B", amazon_order_id := "A-2", docstatus := 1 }

def orderB : AmazonOrder := { amazonOrderId := some "A-2", orderStatus := some "Shipped" }

def stC8 : ErpState := { salesOrders := [soA, soB2] }

def envC8 : Env :=
  { envEmpty with orders_pages := [[shippedOrderA, orderB]] }

/-- Counterexample to C8 as stated: a page of two orders whose sales
orders both exist; processing the first order raises (the orchestrator's
missing method) and the error propagates out of get_orders, so the second
order is never processed and no list of processed identifiers is
returned. -/
theorem claim_C8_counterexample :
    (get_orders envC8 "2024-01-01" stC8).1 =
      Except.error (PyErr.attributeError "process_refunds_and_returns") := rfl

theorem tryCatch_ok {α : Type} (body : M α) (handler : PyErr → M α)
    (hh : ∀ e s, ∃ r s1, handler e s = (Except.ok r, s1)) (s : ErpState) :
    ∃ r s1, M.tryCatch body handler s = (Except.ok r, s1) := by
  cases hb : body s with
  | mk res s2 =>
      cases res with
      | ok a => exact ⟨a, s2, by simp [M.run_tryCatch, hb]⟩
      | error e =>
          obtain ⟨r, s1, h⟩ := hh e s2
          exact ⟨r, s1, by simp [M.run_tryCatch, hb, h]⟩

theorem create_delivery_note_ok (so : String) (st : ErpState) :
    ∃ r st1, create_delivery_note_from_so so st = (Except.ok r, st1) := by
  unfold create_delivery_note_from_so
  refine tryCatch_ok _ _ ?_ st
  intro e s
  exact ⟨none, _, rfl⟩

theorem create_sales_invoice_ok (env : Env) (so : String) (st : ErpState) :
    ∃ r st1, create_sales_invoice_from_so env so st = (Except.ok r, st1) := by
  unfold create_sales_invoice_from_so
  refine tryCatch_ok _ _ ?_ st
  intro e s
  exact ⟨none, _, rfl⟩

theorem update_sales_order_ok (env : Env) (so : String) (o : AmazonOrder) (st : ErpState) :
    ∃ (r : Unit) (st1 : ErpState), update_sales_order env so o st = (Except.ok r, st1) := by
  unfold update_sales_order
  refine tryCatch_ok _ _ ?_ st
  intro e s
  exact ⟨(), _, rfl⟩

theorem update_sales_invoice_ok (env : Env) (si : String) (o : AmazonOrder) (st : ErpState) :
    ∃ (r : Unit) (st1 : ErpState), update_sales_invoice env si o st = (Except.ok r, st1) := by
  unfold update_sales_invoice
  refine tryCatch_ok _ _ ?_ st
  intro e s
  exact ⟨(), _, rfl⟩

theorem update_delivery_note_ok (env : Env) (dn : String) (o : AmazonOrder) (st : ErpState) :
    ∃ (r : Unit) (st1 : ErpState), update_delivery_note env dn o st = (Except.ok r, st1) := by
  unfold update_delivery_note
  refine tryCatch_ok _ _ ?_ st
  intro e s
  exact ⟨(), _, rfl⟩

/-- C8 amended: failures inside the delivery-note and sales-invoice
creation steps and inside every update step are caught and logged, never
raised; but the per-order loop of get_orders has no handler, so an
uncaught error while processing one order (here: the orchestrator, which
raises for every order that resolves to a sales order) aborts the whole
page and the caller receives no list. -/
theorem claim_C8_amended :
    (∀ (so : String) (st : ErpState), ∃ r st1,
        create_delivery_note_from_so so st = (Except.ok r, st1)) ∧
    (∀ (env : Env) (so : String) (st : ErpState), ∃ r st1,
        create_sales_invoice_from_so env so st = (Except.ok r, st1)) ∧
    (∀ (env : Env) (so : String) (o : AmazonOrder) (st : ErpState), ∃ (r : Unit) (st1 : ErpState),
        update_sales_order env so o st = (Except.ok r, st1)) ∧
    (∀ (env : Env) (si : String) (o : AmazonOrder) (st : ErpState), ∃ (r : Unit) (st1 : ErpState),
        update_sales_invoice env si o st = (Except.ok r, st1)) ∧
    (∀ (env : Env) (dn : String) (o : AmazonOrder) (st : ErpState), ∃ (r : Unit) (st1 : ErpState),
        update_delivery_note env dn o st = (Except.ok r, st1)) ∧
    (∀ (env : Env) (st : ErpState) (o : AmazonOrder) (os : List AmazonOrder)
        (acc : List String) (nm : String),
      existing_sales_order st o.amazonOrderId = some nm →
      ∃ e st1, orders_in_page env (o :: os) acc st = (Except.error e, st1)) := by
  refine ⟨create_delivery_note_ok, create_sales_invoice_ok, update_sales_order_ok,
    update_sales_invoice_ok, update_delivery_note_ok, ?_⟩
  intro env st o os acc nm h
  obtain ⟨⟨⟩, st1, hupd⟩ := update_sales_order_ok env nm o st
  obtain ⟨e, hproc⟩ : ∃ e,
      process_order_documents_based_on_status env o nm st1 = (Except.error e, st1) := by
    rw [process_run]
    cases st1.salesOrders.find? (fun x => x.name == nm) <;> exact ⟨_, rfl⟩
  exact ⟨e, st1, by simp [orders_in_page, M.run_bind, M.run_get, h, hupd, hproc]⟩

/-- Witness for the C8 amended theorem at concrete inputs. -/
theorem claim_C8_amended_witness :
    (∃ r st1, create_delivery_note_from_so "SO-A" stC8 = (Except.ok r, st1)) ∧
    (∃ e st1, orders_in_page envC8 [shippedOrderA, orderB] [] stC8 =
        (Except.error e, st1)) :=
  ⟨claim_C8_amended.1 "SO-A" stC8,
   claim_C8_amended.2.2.2.2.2 envC8 stC8 shippedOrderA [orderB] [] "SO-A" (by rfl)⟩

/-! ### Claim C9: item identity resolution -/

/-- The first fields-map row that get_item_code can act on: flagged for
item lookup and with a non-null marketplace value. -/
def first_usable_row (oi : OrderItem) : List FieldsMapRow → Option (FieldsMapRow × String)
  | [] => none
  | m :: ms =>
      if m.use_to_find_item_code then
        match oi.get m.amazon_field with
        | some v => some (m, v)
        | none => first_usable_row oi ms
      else first_usable_row oi ms

theorem get_item_code_from_map_run (env : Env) (oi : OrderItem) (st : ErpState)
    (l : List FieldsMapRow) :
    get_item_code_from_map env oi l st =
      match first_usable_row oi l with
      | none => create_item env oi st
      | some (m, v) =>
          match findItemCode st m.item_field v with
          | some code => (Except.ok (some code), st)
          | none =>
              if st.settings.create_item_if_not_exists then create_item env oi st
              else
                (Except.error (.frappeThrow ("Item not found using field "
                  ++ m.item_field ++ " = " ++ v)), st) := by
  induction l with
  | nil => simp [get_item_code_from_map, first_usable_row]
  | cons m ms ih =>
      cases hm : m.use_to_find_item_code with
      | false => simp [get_item_code_from_map, first_usable_row, hm, ih]
      | true =>
          cases hv : oi.get m.amazon_field with
          | none => simp [get_item_code_from_map, first_usable_row, hm, hv, ih]
          | some v =>
              cases hf : findItemCode st m.item_field v with
              | some code =>
                  simp [get_item_code_from_map, first_usable_row, hm, hv, hf]
              | none =>
                  cases hc : st.settings.create_item_if_not_exists with
                  | false =>
                      simp [get_item_code_from_map, first_usable_row, hm, hv, hf, hc]
                  | true =>
                      simp [get_item_code_from_map, first_usable_row, hm, hv, hf, hc]

/-- C9 amended: get_item_code scans the fields map in order, skipping rows
not flagged for lookup or with a null marketplace value; the first usable
row alone decides the outcome: its ERP item when one exists by that field,
an "Item not found" failure naming that row's field and value when
creation is disabled, and item creation otherwise; rows after the first
usable one are never consulted, and when no row is usable a new item is
created even with creation disabled. -/
theorem claim_C9_amended :
    ∀ (env : Env) (oi : OrderItem) (st : ErpState),
      get_item_code env oi st =
        match first_usable_row oi st.settings.amazon_fields_map with
        | none => create_item env oi st
        | some (m, v) =>
            match findItemCode st m.item_field v with
            | some code => (Except.ok (some code), st)
            | none =>
                if st.settings.create_item_if_not_exists then create_item env oi st
                else
                  (Except.error (.frappeThrow ("Item not found using field "
                    ++ m.item_field ++ " = " ++ v)), st) := by
  intro env oi st
  have h := get_item_code_from_map_run env oi st st.settings.amazon_fields_map
  simpa [get_item_code, M.run_bind, M.run_get] using h

def mapRow1 : FieldsMapRow :=
  { use_to_find_item_code := true, amazon_field := "ASIN", item_field := "amazon_asin" }

def mapRow2 : FieldsMapRow :=
  { use_to_find_item_code := true, amazon_field := "SellerSKU", item_field := "item_code" }

def itemSKU1 : ErpItem := { item_code := some "SKU1" }

def oiC9 : OrderItem :=
  { fields := [("ASIN", "A1"), ("SellerSKU", "SKU1")], quantityOrdered := 1 }

def stC9 : ErpState :=
  { settings := { create_item_if_not_exists := false,
                  amazon_fields_map := [mapRow1, mapRow2] },
    erpItems := [itemSKU1] }

/-- Counterexample to C9 as stated: the second mapping (SellerSKU by
item_code) has a non-null value whose ERP item exists, yet the scan stops
at the first non-null mapping (ASIN), whose item does not exist, and
throws instead of returning SKU1's item. -/
theorem claim_C9_counterexample :
    findItemCode stC9 "item_code" "SKU1" = some "SKU1" ∧
    get_item_code envEmpty oiC9 stC9 =
      (Except.error (.frappeThrow "Item not found using field amazon_asin = A1"), stC9) :=
  ⟨rfl, rfl⟩

/-- Witness for the C9 amended theorem at the counterexample input. -/
theorem claim_C9_amended_witness :
    get_item_code envEmpty oiC9 stC9 =
      match first_usable_row oiC9 stC9.settings.amazon_fields_map with
      | none => create_item envEmpty oiC9 stC9
      | some (m, v) =>
          match findItemCode stC9 m.item_field v with
          | some code => (Except.ok (some code), stC9)
          | none =>
              if stC9.settings.create_item_if_not_exists then create_item envEmpty oiC9 stC9
              else
                (Except.error (.frappeThrow ("Item not found using field "
                  ++ m.item_field ++ " = " ++ v)), stC9) :=
  claim_C9_amended envEmpty oiC9 stC9

/-- C3 amended: amounts read through .get default to 0 when missing — in
get_charges_and_fees a charge or fee without an amount yields no tax line,
and in the aggregator an adjustment line without a QuantityAdjustment
contributes 0 while still setting found — but the aggregator reads the
shipment, refund, service-fee and chargeback amounts with direct indexing,
so a missing amount aborts the scan with a KeyError instead of counting
as 0. -/
theorem claim_C3_amended :
    (∀ (sku ct : Option String) (cs : List ItemCharge) (st : ErpState),
        charges_rows sku ({ chargeType := ct, chargeAmount := none } :: cs) st =
          charges_rows sku cs st) ∧
    (∀ (sku ft : Option String) (fs : List ItemFee) (st : ErpState),
        fees_rows sku ({ feeType := ft, feeAmount := none } :: fs) st =
          fees_rows sku fs st) ∧
    (∀ (oid : String) (l : List AdjustmentItem),
        adjustmentItemsFold oid
            ({ amazonOrderId := some oid, quantityAdjustment := none } :: l) =
          ((adjustmentItemsFold oid l).1, true)) ∧
    (∀ (ct : Option String) (cs : List ItemCharge),
        sumChargeAmounts ({ chargeType := ct, chargeAmount := none } :: cs) =
          Except.error "KeyError: ChargeAmount") ∧
    (∀ (ft : Option String) (fs : List ItemFee),
        sumFeeAmounts ({ feeType := ft, feeAmount := none } :: fs) =
          Except.error "KeyError: FeeAmount") := by
  refine ⟨?_, ?_, ?_, ?_, ?_⟩
  · intro sku ct cs st
    cases h : charges_rows sku cs st with
    | mk res s1 => cases res <;> simp [charges_rows, M.run_bind, h]
  · intro sku ft fs st
    cases h : fees_rows sku fs st with
    | mk res s1 => cases res <;> simp [fees_rows, M.run_bind, h]
  · intro oid l
    cases hA : adjustmentItemsFold oid l with
    | mk t f => simp [adjustmentItemsFold, hA]
  · intro ct cs
    simp [sumChargeAmounts, keyGet]
  · intro ft fs
    simp [sumFeeAmounts, keyGet]
